import Mathlib

/-!
# om_assemble: the command dispatcher of OpenMEEG (`apps/assemble.cpp`)

A shallow embedding of `main` and `option` of `apps/assemble.cpp`.

* The command line is a `List String` (`argv`), `argc` is its length as a machine `int`.
* `main` is a pure function from the command line and the external collaborators
  (`Env`) to a `Run`: the ordered trace of the calls `main` makes on its collaborators
  (loaders, oracles, operator constructors, `save`, console output) and the way the
  process ends (`return`, `exit`, uncaught `std::runtime_error`).
* The collaborators whose code is not part of `assemble.cpp` are not interpreted:
  an operator constructor call is recorded with the exact arguments it receives.
  The three collaborators whose answer `main` branches on are oracles of `Env`:
  `Geometry::selfCheck`, `Matrix::ncol` and the stream extraction `ss >> double`.
  Constructors are taken to return; exceptions raised inside a collaborator are
  outside this file.
* Values of type `double` that `main` handles are the literal `-1.0`, the results of
  successful stream extractions and the values failed extractions leave in their
  target; `main` only compares them with `0.0` and passes them on, so they are
  represented by rationals.
* The positions of `argv` that the program reads are listed, along the same control
  flow, by `outerReads` (reads of `main` outside the branches and of `option`) and
  `branchReads` (reads inside the command branch that runs).
-/

namespace OpenMEEG

/-! ## Data model -/

/-- The global `unsigned gauss_order = 3;`. -/
def gauss_order : Nat := 3

/-- The constructor call `Geometry geo(argv[2],argv[3],OLD_ORDERING)`. -/
structure Geometry where
  geometryFile : String
  conductivityFile : String
  OLD_ORDERING : Bool
deriving DecidableEq, Repr

/-- The two constructor calls of `Sensors` used by `main`. -/
inductive Sensors where
  /-- The call `Sensors electrodes(argv[4])`. -/
  | fromFile (file : String)
  /-- The call `Sensors electrodes(argv[4], geo)`. -/
  | fromFileOn (file : String) (geo : Geometry)
deriving DecidableEq, Repr

/-- The two ways `main` obtains an `Interface` from a geometry. -/
inductive Interface where
  /-- The call `geo.innermost_interface()`. -/
  | innermost_interface (geo : Geometry)
  /-- The call `geo.interface(name)`. -/
  | interface (geo : Geometry) (name : String)
deriving DecidableEq, Repr

/-- The operator constructor calls of `main`, each with the arguments it is given.
Matrices and meshes loaded from a file are identified by the file name. -/
inductive Operator where
  | HeadMat (geo : Geometry) (gauss : Nat)
  | Head2EEGMat (geo : Geometry) (electrodes : Sensors)
  | CorticalMat (geo : Geometry) (M : Operator) (domain : String) (gauss : Nat)
      (alpha beta : ℚ) (filename : String)
  | CorticalMat2 (geo : Geometry) (M : Operator) (domain : String) (gauss : Nat)
      (gamma : ℚ) (filename : String)
  | SurfSourceMat (geo : Geometry) (mesh_sources : String) (gauss : Nat)
  | DipSourceMat (geo : Geometry) (dipoles : String) (gauss : Nat) (adapt_rhs : Bool)
      (domain_name : String)
  | EITSourceMat (geo : Geometry) (electrodes : Sensors) (gauss : Nat)
  | Head2ECoGMat (geo : Geometry) (electrodes : Sensors) (ECoG_layer : Interface)
  | Head2MEGMat (geo : Geometry) (sensors : Sensors)
  | SurfSource2MEGMat (mesh_sources : String) (sensors : Sensors)
  | DipSource2MEGMat (dipoles : String) (sensors : Sensors)
  | Surf2VolMat (geo : Geometry) (points : String)
  | DipSource2InternalPotMat (geo : Geometry) (dipoles : String) (points : String)
      (domain_name : String)
deriving DecidableEq, Repr

/-- What `main` does to the outside world, in program order. -/
inductive Event where
  | print_version (argv0 : String)
  /-- The text printed by `getHelp`. -/
  | help (argv0 : String)
  | print_commandline (argc : Int) (argv : List String)
  | cout (text : String)
  | cerr (text : String)
  /-- The message of `option` before `exit(1)`: option, expected files, given count. -/
  | expects (opt : String) (files : List String) (given : Int)
  | loadGeometry (geo : Geometry)
  | selfCheck (geo : Geometry)
  | loadSensors (s : Sensors)
  | sensorsInfo (s : Sensors)
  | loadMatrix (file : String)
  | loadMesh (file : String)
  | construct (op : Operator)
  | save (op : Operator) (file : String)
  | dispEllapsed
deriving DecidableEq, Repr

/-- How the process ends. -/
inductive Outcome where
  | returned (status : Int)
  | exited (status : Int)
  /-- An uncaught `std::runtime_error(what)`. -/
  | thrown (what : String)
deriving DecidableEq, Repr

/-- One run of the program. -/
structure Run where
  trace : List Event
  outcome : Outcome
deriving DecidableEq, Repr

/-- The collaborators `main` branches on. -/
structure Env where
  /-- The oracle `geo.selfCheck()`. -/
  selfCheck : Geometry → Bool
  /-- The column count `Matrix(file).ncol()`. -/
  ncol : String → Nat
  /-- The extraction `std::stringstream ss(text); ss >> x` for a `double x`: the value
  read on success, `none` when the extraction fails. -/
  extract : String → Option ℚ
  /-- What a failed extraction from `text` does to its target `x`: `some v` when it
  stores `v` (zero when no number can be read, the largest finite `double` or its
  opposite when the number read overflows), `none` when it leaves `x` untouched (the
  text is empty or blank). Consulted only where `extract` answers `none`. -/
  stored : String → Option ℚ

/-- Reading `argv[i]`. A position past the end of the vector reads as the empty string;
every position used in the statements below lies inside the vector. -/
def arg (argv : List String) (i : Nat) : String := argv.getD i ""

/-! ## `option` -/

/-- Conversion of an `int` to `unsigned` (32 bits). -/
def toUnsigned (n : Int) : Nat := (n % 4294967296).toNat

/-- The loop computing `minimum_nparms`: starts at `files.size()` and is decremented
(as an `unsigned`) for each description whose first character `f[0]` is an opening
bracket (character 91). -/
def minimum_nparms (files : List String) : Nat :=
  files.foldl (fun m f => if f.front = Char.ofNat 91 then (m + 4294967295) % 4294967296 else m)
    (files.length % 4294967296)

/-- Result of a call of `option`. -/
inductive OptionResult where
  | returns (b : Bool)
  | exits (status : Int)
deriving DecidableEq, Repr

/-- The function `bool option(const int argc, char** argv, const Strings& options, const Strings& files)`. -/
def option (argc : Int) (argv : List String) : List String → List String → OptionResult
  | [], _ => .returns false
  | s :: rest, files =>
    if arg argv 1 = s then
      if toUnsigned (argc - 2) < minimum_nparms files then .exits 1 else .returns true
    else option argc argv rest files

/-! ## `main` -/

/-- A command branch: the events it produces and, when it ends the process itself,
the way it does; `none` means control reaches the end of the `if`/`else if` chain. -/
abbrev Branch := List Event × Option Outcome

/-- One link `if (option(argc,argv,options,files)) body else otherwise` of the chain. -/
def onOption (argc : Int) (argv : List String) (options files : List String)
    (body otherwise : Branch) : Branch :=
  match option argc argv options files with
  | .exits status => ([.expects (arg argv 1) files (argc - 2)], some (.exited status))
  | .returns true => body
  | .returns false => otherwise

/-- Body of the `-HeadMat` branch. -/
def headMatBranch (env : Env) (argv : List String) (OLD_ORDERING : Bool) : Branch :=
  let geo : Geometry := ⟨arg argv 2, arg argv 3, OLD_ORDERING⟩
  if !env.selfCheck geo then
    ([.loadGeometry geo, .selfCheck geo], some (.exited 1))
  else
    let HM := Operator.HeadMat geo gauss_order
    ([.loadGeometry geo, .selfCheck geo, .construct HM, .save HM (arg argv 4)], none)

/-- The locals `alpha`, `beta`, `gamma`, `filename` of the `-CorticalMat` branch. -/
structure CorticalParams where
  alpha : ℚ
  beta : ℚ
  gamma : ℚ
  filename : String
deriving DecidableEq, Repr

/-- The value of a `double` after a failed extraction from `text`, `x` being its value
before: what the extraction stores, or `x` when it leaves its target untouched. -/
def afterFailure (env : Env) (text : String) (x : ℚ) : ℚ :=
  (env.stored text).getD x

/-- The `switch (argc)` of the `-CorticalMat` branch. The locals start at `-1.0` and the
empty string; no branch resets the target of a failed extraction, which keeps what the
extraction left in it. `Except.error` is the `std::runtime_error`. -/
def corticalSwitch (env : Env) (argc : Int) (argv : List String) :
    Except String CorticalParams :=
  if argc = 8 then
    match env.extract (arg argv 7) with
    | some g => .ok ⟨-1, -1, g, ""⟩
    | none => .ok ⟨-1, -1, afterFailure env (arg argv 7) (-1), arg argv 7⟩
  else if argc = 9 then
    match env.extract (arg argv 7) with
    | none => .error "given parameter is not a number"
    | some a =>
      match env.extract (arg argv 8) with
      | some b => .ok ⟨a, b, -1, ""⟩
      | none => .ok ⟨a, afterFailure env (arg argv 8) (-1), a, arg argv 8⟩
  else if argc = 10 then
    match env.extract (arg argv 7) with
    | none => .error "given parameter is not a number"
    | some a =>
      match env.extract (arg argv 8) with
      | none => .error "given parameter is not a number"
      | some b => .ok ⟨a, b, -1, arg argv 9⟩
  else .ok ⟨-1, -1, -1, ""⟩

/-- Body of the `-CorticalMat` branch. -/
def corticalMatBranch (env : Env) (argc : Int) (argv : List String) (OLD_ORDERING : Bool) :
    Branch :=
  match corticalSwitch env argc argv with
  | .error what => ([], some (.thrown what))
  | .ok p =>
    let geo : Geometry := ⟨arg argv 2, arg argv 3, OLD_ORDERING⟩
    if !env.selfCheck geo then
      ([.loadGeometry geo, .selfCheck geo], some (.exited 1))
    else
      let electrodes := Sensors.fromFile (arg argv 4)
      let M := Operator.Head2EEGMat geo electrodes
      let CM :=
        if p.gamma > 0 then Operator.CorticalMat2 geo M (arg argv 5) gauss_order p.gamma p.filename
        else Operator.CorticalMat geo M (arg argv 5) gauss_order p.alpha p.beta p.filename
      ([.loadGeometry geo, .selfCheck geo, .loadSensors electrodes, .construct M,
        .construct CM, .save CM (arg argv 6)], none)

/-- Body of the `-SurfSourceMat` branch. -/
def surfSourceMatBranch (argv : List String) (OLD_ORDERING : Bool) : Branch :=
  let geo : Geometry := ⟨arg argv 2, arg argv 3, OLD_ORDERING⟩
  let ssm := Operator.SurfSourceMat geo (arg argv 4) gauss_order
  ([.loadGeometry geo, .loadMesh (arg argv 4), .construct ssm, .save ssm (arg argv 5)], none)

/-- The double quote character. -/
def dquote : String := String.singleton (Char.ofNat 34)

/-- The line printed when a domain name is given. -/
def domainNotice (domain_name : String) : String :=
  "Dipoles are considered to be in " ++ dquote ++ domain_name ++ dquote ++ " domain."

/-- The files announced to `option` by the `-DipSourceMat` branch (both calls). -/
def dipSourceMatFiles : List String :=
  ["geometry file", "conductivity file", "dipoles file", "output file"]

/-- Body of the `-DipSourceMat` branch. -/
def dipSourceMatBranch (env : Env) (argc : Int) (argv : List String) (OLD_ORDERING : Bool) :
    Branch :=
  let domain_name := if argc = 7 then arg argv 6 else ""
  let notice : List Event := if argc = 7 then [.cout (domainNotice domain_name)] else []
  let geo : Geometry := ⟨arg argv 2, arg argv 3, OLD_ORDERING⟩
  let pre := notice ++ [.loadGeometry geo, .loadMatrix (arg argv 4)]
  if env.ncol (arg argv 4) ≠ 6 then
    (pre ++ [.cerr "Dipoles File Format Error"], some (.exited 1))
  else
    match option argc argv ["-DipSourceMatNoAdapt", "-DSMNA", "-dsmna"] dipSourceMatFiles with
    | .exits status =>
      (pre ++ [.expects (arg argv 1) dipSourceMatFiles (argc - 2)], some (.exited status))
    | .returns noAdapt =>
      let adapt_rhs := !noAdapt
      let dsm := Operator.DipSourceMat geo (arg argv 4) gauss_order adapt_rhs domain_name
      (pre ++ [.construct dsm, .save dsm (arg argv 5)], none)

/-- Body of the `-EITSourceMat` branch. -/
def eitSourceMatBranch (argv : List String) (OLD_ORDERING : Bool) : Branch :=
  let geo : Geometry := ⟨arg argv 2, arg argv 3, OLD_ORDERING⟩
  let electrodes := Sensors.fromFileOn (arg argv 4) geo
  let EITsource := Operator.EITSourceMat geo electrodes gauss_order
  ([.loadGeometry geo, .loadSensors electrodes, .sensorsInfo electrodes,
    .construct EITsource, .save EITsource (arg argv 5)], none)

/-- Body of the `-Head2EEGMat` branch. -/
def head2EEGMatBranch (argv : List String) (OLD_ORDERING : Bool) : Branch :=
  let geo : Geometry := ⟨arg argv 2, arg argv 3, OLD_ORDERING⟩
  let electrodes := Sensors.fromFile (arg argv 4)
  let mat := Operator.Head2EEGMat geo electrodes
  ([.loadGeometry geo, .loadSensors electrodes, .construct mat, .save mat (arg argv 5)], none)

/-- The warning of the `-Head2ECoGMat` branch (three lines). -/
def ecogWarning : List Event :=
  [.cerr "Warning: we assume that ECoG electrodes are placed on the inner interface.",
   .cerr "This is only valid for nested files. Consider specifying an interface as a name",
   .cerr " right after the electrode position file."]

/-- Body of the `-Head2ECoGMat` branch. -/
def head2ECoGMatBranch (argc : Int) (argv : List String) (OLD_ORDERING : Bool) : Branch :=
  let geo : Geometry := ⟨arg argv 2, arg argv 3, OLD_ORDERING⟩
  let electrodes := Sensors.fromFile (arg argv 4)
  let old_cmd_line : Bool := decide (argc = 6)
  let warning : List Event := if old_cmd_line then ecogWarning else []
  let ECoG_layer :=
    if old_cmd_line then Interface.innermost_interface geo else Interface.interface geo (arg argv 5)
  let mat := Operator.Head2ECoGMat geo electrodes ECoG_layer
  ([.loadGeometry geo, .loadSensors electrodes] ++ warning ++
    [.construct mat, .save mat (arg argv (if old_cmd_line then 5 else 6))], none)

/-- Body of the `-Head2MEGMat` branch. -/
def head2MEGMatBranch (argv : List String) (OLD_ORDERING : Bool) : Branch :=
  let geo : Geometry := ⟨arg argv 2, arg argv 3, OLD_ORDERING⟩
  let sensors := Sensors.fromFile (arg argv 4)
  let mat := Operator.Head2MEGMat geo sensors
  ([.loadGeometry geo, .loadSensors sensors, .construct mat, .save mat (arg argv 5)], none)

/-- Body of the `-SurfSource2MEGMat` branch. -/
def surfSource2MEGMatBranch (argv : List String) : Branch :=
  let sensors := Sensors.fromFile (arg argv 3)
  let mat := Operator.SurfSource2MEGMat (arg argv 2) sensors
  ([.loadMesh (arg argv 2), .loadSensors sensors, .construct mat, .save mat (arg argv 4)], none)

/-- Body of the `-DipSource2MEGMat` branch. -/
def dipSource2MEGMatBranch (argv : List String) : Branch :=
  let sensors := Sensors.fromFile (arg argv 3)
  let mat := Operator.DipSource2MEGMat (arg argv 2) sensors
  ([.loadMatrix (arg argv 2), .loadSensors sensors, .construct mat, .save mat (arg argv 4)], none)

/-- Body of the `-Head2InternalPotMat` branch. -/
def head2InternalPotMatBranch (argv : List String) (OLD_ORDERING : Bool) : Branch :=
  let geo : Geometry := ⟨arg argv 2, arg argv 3, OLD_ORDERING⟩
  let mat := Operator.Surf2VolMat geo (arg argv 4)
  ([.loadGeometry geo, .loadMatrix (arg argv 4), .construct mat, .save mat (arg argv 5)], none)

/-- Body of the `-DipSource2InternalPotMat` branch. -/
def dipSource2InternalPotMatBranch (argc : Int) (argv : List String) (OLD_ORDERING : Bool) :
    Branch :=
  let domain_name := if argc = 9 then arg argv 7 else ""
  let notice : List Event := if argc = 9 then [.cout (domainNotice domain_name)] else []
  let geo : Geometry := ⟨arg argv 2, arg argv 3, OLD_ORDERING⟩
  let mat := Operator.DipSource2InternalPotMat geo (arg argv 4) (arg argv 5) domain_name
  (notice ++ [.loadGeometry geo, .loadMatrix (arg argv 4), .loadMatrix (arg argv 5),
    .construct mat, .save mat (arg argv 6)], none)

/-- The final `else` of the chain. -/
def unknownArgument (argv : List String) : Branch :=
  ([.cerr ("unknown argument: " ++ arg argv 1)], some (.exited 1))

/-- The `if`/`else if` chain of `main`, from the `-HeadMat` test to the final `else`. -/
def dispatch (env : Env) (argc : Int) (argv : List String) (OLD_ORDERING : Bool) : Branch :=
  onOption argc argv ["-HeadMat", "-HM", "-hm"]
    ["geometry file", "conductivity file", "output file"]
    (headMatBranch env argv OLD_ORDERING) <|
  onOption argc argv ["-CorticalMat", "-CM", "-cm"]
    ["geometry file", "conductivity file", "sensors file", "domain name", "output file"]
    (corticalMatBranch env argc argv OLD_ORDERING) <|
  onOption argc argv ["-SurfSourceMat", "-SSM", "-ssm"]
    ["geometry file", "conductivity file", "'mesh of sources' file", "output file"]
    (surfSourceMatBranch argv OLD_ORDERING) <|
  onOption argc argv
    ["-DipSourceMat", "-DSM", "-dsm", "-DipSourceMatNoAdapt", "-DSMNA", "-dsmna"]
    dipSourceMatFiles
    (dipSourceMatBranch env argc argv OLD_ORDERING) <|
  onOption argc argv ["-EITSourceMat", "-EITSM", "-EITsm"]
    ["geometry file", "conductivity file", "electrodes positions file", "output file"]
    (eitSourceMatBranch argv OLD_ORDERING) <|
  onOption argc argv ["-Head2EEGMat", "-H2EM", "-h2em"]
    ["geometry file", "conductivity file", "electrodes positions file", "output file"]
    (head2EEGMatBranch argv OLD_ORDERING) <|
  onOption argc argv ["-Head2ECoGMat", "-H2ECogM", "-H2ECOGM", "-h2ecogm"]
    ["geometry file", "conductivity file", "ECoG electrodes positions file",
     "[name of the interface for EcoG]", "output file"]
    (head2ECoGMatBranch argc argv OLD_ORDERING) <|
  onOption argc argv ["-Head2MEGMat", "-H2MM", "-h2mm"]
    ["geometry file", "conductivity file", "squids file", "output file"]
    (head2MEGMatBranch argv OLD_ORDERING) <|
  onOption argc argv ["-SurfSource2MEGMat", "-SS2MM", "-ss2mm"]
    ["'mesh sources' file", "squids file", "output file"]
    (surfSource2MEGMatBranch argv) <|
  onOption argc argv ["-DipSource2MEGMat", "-DS2MM", "-ds2mm"]
    ["dipoles file", "squids file", "output file"]
    (dipSource2MEGMatBranch argv) <|
  onOption argc argv ["-Head2InternalPotMat", "-H2IPM", "-h2ipm"]
    ["geometry file", "conductivity file", "point positions file", "output file"]
    (head2InternalPotMatBranch argv OLD_ORDERING) <|
  onOption argc argv ["-DipSource2InternalPotMat", "-DS2IPM", "-ds2ipm"]
    ["geometry file", "conductivity file", "dipole file", "point positions file", "output file"]
    (dipSource2InternalPotMatBranch argc argv OLD_ORDERING)
    (unknownArgument argv)

/-- The test `strcmp(argv[argc-1], "-old-ordering") == 0` (made when `argc >= 2`). -/
def oldOrdering (argv : List String) : Bool :=
  decide (arg argv (argv.length - 1) = "-old-ordering")

/-- The value of `argc` after the optional `argc--`. -/
def effectiveArgc (argv : List String) : Int :=
  if oldOrdering argv then (argv.length : Int) - 1 else argv.length

/-- The line printed when the old ordering is requested. -/
def oldOrderingNotice : String :=
  "Using old ordering i.e using (V1, p1, V2, p2, V3) instead of (V1, V2, V3, p1, p2)"

/-- The end of `main` after the chain: a branch that ended the process keeps its
outcome; otherwise the elapsed time is displayed and `main` returns 0. -/
def finish (start : List Event) (argc : Int) (argv : List String) : Branch → Run
  | (events, some outcome) => ⟨start ++ .print_commandline argc argv :: events, outcome⟩
  | (events, none) =>
    ⟨start ++ .print_commandline argc argv :: events ++ [.dispEllapsed], .returned 0⟩

/-- The events of `main` before the help test. -/
def start (argv : List String) : List Event :=
  .print_version (arg argv 0) :: (if oldOrdering argv then [.cout oldOrderingNotice] else [])

/-- The function `int main(int argc, char** argv)`, with `argc = argv.length`. -/
def main (env : Env) (argv : List String) : Run :=
  if (argv.length : Int) < 2 then
    ⟨[.print_version (arg argv 0), .help (arg argv 0)], .exited 0⟩
  else
    let OLD_ORDERING := oldOrdering argv
    let argc := effectiveArgc argv
    match option argc argv ["-h", "--help"] [] with
    | .exits status => ⟨start argv ++ [.expects (arg argv 1) [] (argc - 2)], .exited status⟩
    | .returns true => ⟨start argv ++ [.help (arg argv 0)], .exited 0⟩
    | .returns false => finish (start argv) argc argv (dispatch env argc argv OLD_ORDERING)

/-! ## Observations on a run -/

/-- The operators constructed during a run, in order. -/
def Run.constructed (r : Run) : List Operator :=
  r.trace.filterMap fun e => match e with
    | .construct op => some op
    | _ => none

/-- The matrices saved during a run, each with the file it is saved to, in order. -/
def Run.saved (r : Run) : List (Operator × String) :=
  r.trace.filterMap fun e => match e with
    | .save op file => some (op, file)
    | _ => none

/-- The lines written to `std::cerr` during a run, in order. -/
def Run.cerr (r : Run) : List String :=
  r.trace.filterMap fun e => match e with
    | .cerr text => some text
    | _ => none

/-- Whether an operator is a `CorticalMat`. -/
def Operator.isCorticalMat : Operator → Bool
  | .CorticalMat .. => true
  | _ => false

/-- Whether an operator is a `CorticalMat2`. -/
def Operator.isCorticalMat2 : Operator → Bool
  | .CorticalMat2 .. => true
  | _ => false

/-- The `CorticalMat` and `CorticalMat2` operators constructed during a run. -/
def Run.cortical (r : Run) : List Operator :=
  r.constructed.filter fun op => op.isCorticalMat || op.isCorticalMat2

/-- The file name an operator receives for its intermediate matrix
(the last constructor argument of `CorticalMat` and `CorticalMat2`). -/
def Operator.intermediateFile : Operator → Option String
  | .CorticalMat _ _ _ _ _ _ filename => some filename
  | .CorticalMat2 _ _ _ _ _ filename => some filename
  | _ => none

/-- The geometry every geometry-loading branch constructs:
`Geometry geo(argv[2],argv[3],OLD_ORDERING)`. -/
abbrev loadedGeometry (argv : List String) : Geometry :=
  ⟨arg argv 2, arg argv 3, oldOrdering argv⟩

/-- The operator `Head2EEGMat M(geo, electrodes)` of the `-CorticalMat` branch. -/
abbrev eegMat (argv : List String) : Operator :=
  .Head2EEGMat (loadedGeometry argv) (.fromFile (arg argv 4))

/-! ## Sample collaborators and command lines -/

/-- The largest finite `double`, `2^1024 - 2^971`. -/
def DBL_MAX : ℚ :=
  179769313486231570814527423731704356798070567525844996598917476803157260780028538760589558632766878171540458953514382464234321326889464182768467546703537516986049910576551282076245490090389328944075868508455133942304583236903222948165808559332123348274797826204144723168738177180919299881250404026184124858368

/-- A stream extraction on a few texts, answering as `operator>>` does: four numerals
are read whole, of "2nd_run.bin" the leading 2 is read, every other text fails. -/
def sampleExtract (text : String) : Option ℚ :=
  if text = "2" then some 2
  else if text = "3" then some 3
  else if text = "0" then some 0
  else if text = "-2" then some (-2)
  else if text = "2nd_run.bin" then some 2
  else none

/-- What the failed extractions of `sampleExtract` leave: the overflowing "1e999"
stores `DBL_MAX`, the empty text leaves the target untouched, other texts store 0. -/
def sampleStored (text : String) : Option ℚ :=
  if text = "1e999" then some DBL_MAX
  else if text = "" then none
  else some 0

/-- Collaborators answering `ok` to every self check and `cols` to every column count. -/
def sampleEnv (ok : Bool) (cols : Nat) : Env :=
  ⟨fun _ => ok, fun _ => cols, sampleExtract, sampleStored⟩

/-- A DipSourceMat command line without domain name. -/
def dsmLine : List String :=
  ["om_assemble", "-DSM", "head.geom", "head.cond", "dipoles.txt", "dsm.mat"]

/-- A SurfSourceMat command line. -/
def ssmLine : List String :=
  ["om_assemble", "-SurfSourceMat", "head.geom", "head.cond", "sources.tri", "ssm.mat"]

/-- The common part of the CorticalMat command lines below. -/
def cmLine : List String :=
  ["om_assemble", "-CM", "head.geom", "head.cond", "eeg.patches", "Brain", "cm.mat"]

/-- A Head2ECoGMat command line naming the interface. -/
def ecogLine : List String :=
  ["om_assemble", "-Head2ECoGMat", "head.geom", "head.cond", "ecog.patches", "Cortex",
    "h2ecog.mat"]

/-- A Head2ECoGMat command line without interface name. -/
def ecogOldLine : List String :=
  ["om_assemble", "-h2ecogm", "head.geom", "head.cond", "ecog.patches", "h2ecog.mat"]

/-- A DipSource2InternalPotMat command line with the domain name after the output. -/
def ds2ipmLine : List String :=
  ["om_assemble", "-DS2IPM", "head.geom", "head.cond", "dipoles.txt", "points.txt",
    "ds2ipm.mat", "Brain"]

/-- One command line for each command that loads a geometry without calling
`selfCheck()`. -/
def uncheckedLines : List (List String) :=
  [ssmLine, dsmLine,
   ["om_assemble", "-EITSourceMat", "head.geom", "head.cond", "eit.patches", "eitsm.mat"],
   ["om_assemble", "-Head2EEGMat", "head.geom", "head.cond", "eeg.patches", "h2em.mat"],
   ["om_assemble", "-Head2ECoGMat", "head.geom", "head.cond", "ecog.patches", "h2ecog.mat"],
   ["om_assemble", "-Head2MEGMat", "head.geom", "head.cond", "meg.squids", "h2mm.mat"],
   ["om_assemble", "-Head2InternalPotMat", "head.geom", "head.cond", "points.txt", "h2ipm.mat"],
   ["om_assemble", "-DipSource2InternalPotMat", "head.geom", "head.cond", "dipoles.txt",
     "points.txt", "ds2ipm.mat"]]

/-- The number of entries of `files` that do not start with an opening bracket:
the number of arguments a command requires. -/
def requiredArguments (files : List String) : Nat :=
  files.countP fun f => f.front ≠ Char.ofNat 91

/-! ## The ordering flag of the geometries -/

/-- The same geometry files with the ordering flag set to `b`. -/
def Geometry.setOrdering (b : Bool) (geo : Geometry) : Geometry :=
  ⟨geo.geometryFile, geo.conductivityFile, b⟩

/-- The ordering flag set to `b` in the geometry the sensors are built on, if any. -/
def Sensors.setOrdering (b : Bool) : Sensors → Sensors
  | .fromFile file => .fromFile file
  | .fromFileOn file geo => .fromFileOn file (geo.setOrdering b)

/-- The ordering flag set to `b` in the geometry the interface is taken from. -/
def Interface.setOrdering (b : Bool) : Interface → Interface
  | .innermost_interface geo => .innermost_interface (geo.setOrdering b)
  | .interface geo name => .interface (geo.setOrdering b) name

/-- The ordering flag set to `b` in every geometry an operator is constructed from;
all other constructor arguments are kept. -/
def Operator.setOrdering (b : Bool) : Operator → Operator
  | .HeadMat geo gauss => .HeadMat (geo.setOrdering b) gauss
  | .Head2EEGMat geo electrodes => .Head2EEGMat (geo.setOrdering b) (electrodes.setOrdering b)
  | .CorticalMat geo M domain gauss alpha beta filename =>
    .CorticalMat (geo.setOrdering b) (M.setOrdering b) domain gauss alpha beta filename
  | .CorticalMat2 geo M domain gauss gamma filename =>
    .CorticalMat2 (geo.setOrdering b) (M.setOrdering b) domain gauss gamma filename
  | .SurfSourceMat geo mesh_sources gauss => .SurfSourceMat (geo.setOrdering b) mesh_sources gauss
  | .DipSourceMat geo dipoles gauss adapt_rhs domain_name =>
    .DipSourceMat (geo.setOrdering b) dipoles gauss adapt_rhs domain_name
  | .EITSourceMat geo electrodes gauss =>
    .EITSourceMat (geo.setOrdering b) (electrodes.setOrdering b) gauss
  | .Head2ECoGMat geo electrodes ECoG_layer =>
    .Head2ECoGMat (geo.setOrdering b) (electrodes.setOrdering b) (ECoG_layer.setOrdering b)
  | .Head2MEGMat geo sensors => .Head2MEGMat (geo.setOrdering b) (sensors.setOrdering b)
  | .SurfSource2MEGMat mesh_sources sensors =>
    .SurfSource2MEGMat mesh_sources (sensors.setOrdering b)
  | .DipSource2MEGMat dipoles sensors => .DipSource2MEGMat dipoles (sensors.setOrdering b)
  | .Surf2VolMat geo points => .Surf2VolMat (geo.setOrdering b) points
  | .DipSource2InternalPotMat geo dipoles points domain_name =>
    .DipSource2InternalPotMat (geo.setOrdering b) dipoles points domain_name

/-- The ordering flag set to `b` in every geometry an event mentions. -/
def Event.setOrdering (b : Bool) : Event → Event
  | .loadGeometry geo => .loadGeometry (geo.setOrdering b)
  | .selfCheck geo => .selfCheck (geo.setOrdering b)
  | .loadSensors s => .loadSensors (s.setOrdering b)
  | .sensorsInfo s => .sensorsInfo (s.setOrdering b)
  | .construct op => .construct (op.setOrdering b)
  | .save op file => .save (op.setOrdering b) file
  | e => e

/-- The ordering flag set to `b` in every event of a branch. -/
def Branch.setOrdering (b : Bool) (br : Branch) : Branch :=
  (br.1.map (Event.setOrdering b), br.2)

/-- The collaborators seen from a run in which every geometry has its ordering flag set
to `b`: the self check of a geometry is the one of that geometry with the flag `b`. -/
def Env.onOrdering (b : Bool) (env : Env) : Env :=
  ⟨fun geo => env.selfCheck (geo.setOrdering b), env.ncol, env.extract, env.stored⟩

/-! ## Positions of `argv` that are read -/

/-- One link of the chain, for the positions read inside the command branches
(the reads of `argv[1]` made by `option` itself are in `outerReads`). -/
def readsOn (argc : Int) (argv : List String) (options files : List String)
    (body otherwise : List Nat) : List Nat :=
  match option argc argv options files with
  | .exits _ => []
  | .returns true => body
  | .returns false => otherwise

/-- Positions read by the `-HeadMat` branch: `argv[4]` only after the self check. -/
def headMatReads (env : Env) (argv : List String) (OLD_ORDERING : Bool) : List Nat :=
  if !env.selfCheck ⟨arg argv 2, arg argv 3, OLD_ORDERING⟩ then [2, 3] else [2, 3, 4]

/-- Positions read by the `switch (argc)` of the `-CorticalMat` branch. -/
def corticalSwitchReads (env : Env) (argc : Int) (argv : List String) : List Nat :=
  if argc = 8 then
    match env.extract (arg argv 7) with
    | some _ => [7]
    | none => [7, 7]
  else if argc = 9 then
    match env.extract (arg argv 7) with
    | none => [7]
    | some _ =>
      match env.extract (arg argv 8) with
      | some _ => [7, 8]
      | none => [7, 8, 8]
  else if argc = 10 then
    match env.extract (arg argv 7) with
    | none => [7]
    | some _ =>
      match env.extract (arg argv 8) with
      | none => [7, 8]
      | some _ => [7, 8, 9]
  else []

/-- Positions read by the `-CorticalMat` branch. -/
def corticalMatReads (env : Env) (argc : Int) (argv : List String) (OLD_ORDERING : Bool) :
    List Nat :=
  corticalSwitchReads env argc argv ++
    match corticalSwitch env argc argv with
    | .error _ => []
    | .ok _ =>
      if !env.selfCheck ⟨arg argv 2, arg argv 3, OLD_ORDERING⟩ then [2, 3]
      else [2, 3, 4, 5, 6]

/-- Positions read by the `-DipSourceMat` branch (`argv[1]` is read by `option`). -/
def dipSourceMatReads (env : Env) (argc : Int) (argv : List String) : List Nat :=
  (if argc = 7 then [6] else []) ++ [2, 3, 4] ++
    (if env.ncol (arg argv 4) ≠ 6 then [] else [5])

/-- Positions read by the `-Head2ECoGMat` branch. -/
def head2ECoGMatReads (argc : Int) : List Nat :=
  [2, 3, 4] ++ (if argc = 6 then [5] else [5, 6])

/-- Positions read by the `-DipSource2InternalPotMat` branch. -/
def dipSource2InternalPotMatReads (argc : Int) : List Nat :=
  (if argc = 9 then [7] else []) ++ [2, 3, 4, 5, 6]

/-- Positions read inside the command branches, along the `if`/`else if` chain. The
branches not named above read `argv[2]` to `argv[4]` (three files) or to `argv[5]`
(four files). -/
def dispatchReads (env : Env) (argc : Int) (argv : List String) (OLD_ORDERING : Bool) :
    List Nat :=
  readsOn argc argv ["-HeadMat", "-HM", "-hm"]
    ["geometry file", "conductivity file", "output file"]
    (headMatReads env argv OLD_ORDERING) <|
  readsOn argc argv ["-CorticalMat", "-CM", "-cm"]
    ["geometry file", "conductivity file", "sensors file", "domain name", "output file"]
    (corticalMatReads env argc argv OLD_ORDERING) <|
  readsOn argc argv ["-SurfSourceMat", "-SSM", "-ssm"]
    ["geometry file", "conductivity file", "'mesh of sources' file", "output file"]
    [2, 3, 4, 5] <|
  readsOn argc argv
    ["-DipSourceMat", "-DSM", "-dsm", "-DipSourceMatNoAdapt", "-DSMNA", "-dsmna"]
    dipSourceMatFiles
    (dipSourceMatReads env argc argv) <|
  readsOn argc argv ["-EITSourceMat", "-EITSM", "-EITsm"]
    ["geometry file", "conductivity file", "electrodes positions file", "output file"]
    [2, 3, 4, 5] <|
  readsOn argc argv ["-Head2EEGMat", "-H2EM", "-h2em"]
    ["geometry file", "conductivity file", "electrodes positions file", "output file"]
    [2, 3, 4, 5] <|
  readsOn argc argv ["-Head2ECoGMat", "-H2ECogM", "-H2ECOGM", "-h2ecogm"]
    ["geometry file", "conductivity file", "ECoG electrodes positions file",
     "[name of the interface for EcoG]", "output file"]
    (head2ECoGMatReads argc) <|
  readsOn argc argv ["-Head2MEGMat", "-H2MM", "-h2mm"]
    ["geometry file", "conductivity file", "squids file", "output file"]
    [2, 3, 4, 5] <|
  readsOn argc argv ["-SurfSource2MEGMat", "-SS2MM", "-ss2mm"]
    ["'mesh sources' file", "squids file", "output file"]
    [2, 3, 4] <|
  readsOn argc argv ["-DipSource2MEGMat", "-DS2MM", "-ds2mm"]
    ["dipoles file", "squids file", "output file"]
    [2, 3, 4] <|
  readsOn argc argv ["-Head2InternalPotMat", "-H2IPM", "-h2ipm"]
    ["geometry file", "conductivity file", "point positions file", "output file"]
    [2, 3, 4, 5] <|
  readsOn argc argv ["-DipSource2InternalPotMat", "-DS2IPM", "-ds2ipm"]
    ["geometry file", "conductivity file", "dipole file", "point positions file", "output file"]
    (dipSource2InternalPotMatReads argc)
    []

/-- Positions read by `main` outside the command branches and by `option`: `argv[0]`
(`print_version`, `getHelp`), `argv[argc-1]` (the `strcmp`, made when `argc >= 2`) and
`argv[1]` (every call of `option`, and the final `else`). -/
def outerReads (argv : List String) : List Nat :=
  if (argv.length : Int) < 2 then [0] else [0, argv.length - 1, 1]

/-- Positions read inside the command branch that `main` runs, if it runs one. -/
def branchReads (env : Env) (argv : List String) : List Nat :=
  if (argv.length : Int) < 2 then []
  else
    match option (effectiveArgc argv) argv ["-h", "--help"] [] with
    | .returns false => dispatchReads env (effectiveArgc argv) argv (oldOrdering argv)
    | _ => []

/-- A DipSourceMat command line ending with the ordering flag given twice. -/
def dsmTwiceLine : List String :=
  dsmLine ++ ["-old-ordering", "-old-ordering"]

/-! ## Lemmas on `option` and on the chain -/

theorem toUnsigned_of_nonneg_of_lt (n : Int) (h0 : 0 ≤ n) (h1 : n < 4294967296) :
    toUnsigned n = n.toNat := by
  unfold toUnsigned
  rw [Int.emod_eq_of_lt h0 h1]

theorem option_of_mem (argc : Int) (argv options files : List String)
    (h : arg argv 1 ∈ options) :
    option argc argv options files =
      if toUnsigned (argc - 2) < minimum_nparms files then .exits 1 else .returns true := by
  induction options with
  | nil => simp at h
  | cons s rest ih =>
    by_cases hs : arg argv 1 = s
    · simp [option, hs]
    · have hrest : arg argv 1 ∈ rest := by
        rcases List.mem_cons.mp h with h1 | h1
        · exact absurd h1 hs
        · exact h1
      simp [option, hs, ih hrest]

theorem option_of_not_mem (argc : Int) (argv options files : List String)
    (h : arg argv 1 ∉ options) :
    option argc argv options files = .returns false := by
  induction options with
  | nil => rfl
  | cons s rest ih =>
    have hs : arg argv 1 ≠ s := fun e => h (e ▸ List.mem_cons_self _ _)
    have hrest : arg argv 1 ∉ rest := fun m => h (List.mem_cons_of_mem _ m)
    simp [option, hs, ih hrest]

theorem effectiveArgc_le_length (argv : List String) :
    effectiveArgc argv ≤ argv.length := by
  unfold effectiveArgc
  split <;> omega

theorem length_le_effectiveArgc_succ (argv : List String) :
    (argv.length : Int) ≤ effectiveArgc argv + 1 := by
  unfold effectiveArgc
  split <;> omega

/-- Past the help test: when at least two arguments remain and `argv[1]` is not a help
option, `main` is the chain followed by `finish`. -/
theorem main_eq_finish (env : Env) (argv : List String)
    (hargc : 2 ≤ effectiveArgc argv) (hopt : arg argv 1 ∉ ["-h", "--help"]) :
    main env argv =
      finish (start argv) (effectiveArgc argv) argv
        (dispatch env (effectiveArgc argv) argv (oldOrdering argv)) := by
  have hlen : ¬ ((argv.length : Int) < 2) := by
    have := effectiveArgc_le_length argv
    omega
  simp only [main, hlen, if_false, option_of_not_mem _ _ _ _ hopt]


theorem minimum_nparms_dipSourceMatFiles : minimum_nparms dipSourceMatFiles = 4 := by decide

theorem dispatch_dipSourceMat (env : Env) (argc : Int) (argv : List String) (old : Bool)
    (hopt : arg argv 1 ∈
      ["-DipSourceMat", "-DSM", "-dsm", "-DipSourceMatNoAdapt", "-DSMNA", "-dsmna"])
    (hlo : 6 ≤ argc) (hhi : argc < 2147483648) :
    dispatch env argc argv old = dipSourceMatBranch env argc argv old := by
  have hu : toUnsigned (argc - 2) = (argc - 2).toNat :=
    toUnsigned_of_nonneg_of_lt _ (by omega) (by omega)
  have hge : ¬ ((argc - 2).toNat < 4) := by omega
  simp only [List.mem_cons, List.mem_singleton, List.not_mem_nil, or_false] at hopt
  rcases hopt with h | h | h | h | h | h <;>
    simp [dispatch, onOption, option, h, hu, hge, minimum_nparms_dipSourceMatFiles]

theorem dipSourceMat_not_help (argv : List String)
    (hopt : arg argv 1 ∈
      ["-DipSourceMat", "-DSM", "-dsm", "-DipSourceMatNoAdapt", "-DSMNA", "-dsmna"]) :
    arg argv 1 ∉ ["-h", "--help"] := by
  simp only [List.mem_cons, List.mem_singleton, List.not_mem_nil, or_false] at hopt
  rcases hopt with h | h | h | h | h | h <;> simp [h]

/-- The second call of `option` in the `-DipSourceMat` branch cannot exit: the first
call has already checked the same number of arguments. -/
theorem option_noAdapt (argc : Int) (argv : List String)
    (hlo : 6 ≤ argc) (hhi : argc < 2147483648) :
    option argc argv ["-DipSourceMatNoAdapt", "-DSMNA", "-dsmna"] dipSourceMatFiles =
      .returns (decide (arg argv 1 ∈ ["-DipSourceMatNoAdapt", "-DSMNA", "-dsmna"])) := by
  have hu : toUnsigned (argc - 2) = (argc - 2).toNat :=
    toUnsigned_of_nonneg_of_lt _ (by omega) (by omega)
  have hge : ¬ ((argc - 2).toNat < 4) := by omega
  by_cases h : arg argv 1 ∈ ["-DipSourceMatNoAdapt", "-DSMNA", "-dsmna"]
  · rw [option_of_mem _ _ _ _ h]
    simp [hu, hge, minimum_nparms_dipSourceMatFiles, h]
  · rw [option_of_not_mem _ _ _ _ h]
    simp [h]

theorem main_dipSourceMat (env : Env) (argv : List String)
    (hint : (argv.length : Int) < 2147483648)
    (hopt : arg argv 1 ∈
      ["-DipSourceMat", "-DSM", "-dsm", "-DipSourceMatNoAdapt", "-DSMNA", "-dsmna"])
    (hargs : 6 ≤ effectiveArgc argv) :
    main env argv =
      finish (start argv) (effectiveArgc argv) argv
        (dipSourceMatBranch env (effectiveArgc argv) argv (oldOrdering argv)) := by
  have hhi : effectiveArgc argv < 2147483648 := by
    have := effectiveArgc_le_length argv
    omega
  rw [main_eq_finish env argv (by omega) (dipSourceMat_not_help argv hopt),
    dispatch_dipSourceMat env _ argv _ hopt hargs hhi]

/-- The run of the DipSourceMat command on a 6-column dipole matrix. -/
theorem main_dipSourceMat_six (env : Env) (argv : List String)
    (hint : (argv.length : Int) < 2147483648)
    (hopt : arg argv 1 ∈
      ["-DipSourceMat", "-DSM", "-dsm", "-DipSourceMatNoAdapt", "-DSMNA", "-dsmna"])
    (hargs : 6 ≤ effectiveArgc argv) (hncol : env.ncol (arg argv 4) = 6) :
    (main env argv).constructed =
        [.DipSourceMat ⟨arg argv 2, arg argv 3, oldOrdering argv⟩ (arg argv 4) gauss_order
          (!decide (arg argv 1 ∈ ["-DipSourceMatNoAdapt", "-DSMNA", "-dsmna"]))
          (if effectiveArgc argv = 7 then arg argv 6 else "")] ∧
    (main env argv).saved =
        [(.DipSourceMat ⟨arg argv 2, arg argv 3, oldOrdering argv⟩ (arg argv 4) gauss_order
          (!decide (arg argv 1 ∈ ["-DipSourceMatNoAdapt", "-DSMNA", "-dsmna"]))
          (if effectiveArgc argv = 7 then arg argv 6 else ""), arg argv 5)] ∧
    (main env argv).outcome = .returned 0 := by
  have hhi : effectiveArgc argv < 2147483648 := by
    have := effectiveArgc_le_length argv
    omega
  have hno := option_noAdapt _ argv hargs hhi
  rw [main_dipSourceMat env argv hint hopt hargs]
  simp only [dipSourceMatBranch, hno]
  by_cases h7 : effectiveArgc argv = 7 <;> by_cases ho : oldOrdering argv = true <;>
    simp [finish, start, Run.constructed, Run.saved, hncol, h7, ho]

/-- C1: in the DipSourceMat command (any of the six spellings), once the dipole matrix
is loaded: if its column count is not 6 the run ends by `exit(1)` right after printing
the format error, no operator is constructed and no matrix is saved; if it is 6 a
DipSourceMat operator is constructed on the loaded geometry and dipoles and saved to
the output file, and the run returns 0. -/
theorem dipSourceMat_column_count (env : Env) (argv : List String)
    (hint : (argv.length : Int) < 2147483648)
    (hopt : arg argv 1 ∈
      ["-DipSourceMat", "-DSM", "-dsm", "-DipSourceMatNoAdapt", "-DSMNA", "-dsmna"])
    (hargs : 6 ≤ effectiveArgc argv) :
    (env.ncol (arg argv 4) ≠ 6 →
      (main env argv).outcome = .exited 1 ∧
      (main env argv).trace.getLast? = some (.cerr "Dipoles File Format Error") ∧
      (main env argv).constructed = [] ∧
      (main env argv).saved = []) ∧
    (env.ncol (arg argv 4) = 6 →
      ∃ adapt_rhs domain_name,
        (main env argv).constructed =
          [.DipSourceMat ⟨arg argv 2, arg argv 3, oldOrdering argv⟩ (arg argv 4) gauss_order
            adapt_rhs domain_name] ∧
        (main env argv).saved =
          [(.DipSourceMat ⟨arg argv 2, arg argv 3, oldOrdering argv⟩ (arg argv 4) gauss_order
            adapt_rhs domain_name, arg argv 5)] ∧
        (main env argv).outcome = .returned 0) := by
  constructor
  · intro hncol
    rw [main_dipSourceMat env argv hint hopt hargs]
    by_cases h7 : effectiveArgc argv = 7 <;> by_cases ho : oldOrdering argv = true <;>
      simp [dipSourceMatBranch, finish, start, Run.constructed, Run.saved, hncol, h7, ho]
  · intro hncol
    exact ⟨_, _, main_dipSourceMat_six env argv hint hopt hargs hncol⟩

theorem dipSourceMat_column_count_witness :
    ((dsmLine.length : Int) < 2147483648 ∧ 6 ≤ effectiveArgc dsmLine ∧
      (sampleEnv true 5).ncol (arg dsmLine 4) ≠ 6) ∧
    (main (sampleEnv true 5) dsmLine).outcome = .exited 1 ∧
    (main (sampleEnv true 5) dsmLine).constructed = [] :=
  have h := (dipSourceMat_column_count (sampleEnv true 5) dsmLine (by decide) (by decide)
    (by decide)).1 (by decide)
  ⟨⟨by decide, by decide, by decide⟩, h.1, h.2.2.1⟩

/-- C2 (the code departs from the claim): on a geometry whose `selfCheck()` is false the
HeadMat command exits with status 1 before constructing anything, but the SurfSourceMat
command never consults `selfCheck()`: it constructs SurfSourceMat on that geometry, saves
it and returns 0. The same holds for the seven other commands that load a geometry
outside the HeadMat and CorticalMat branches: each constructs and saves an operator. -/
theorem surfSourceMat_skips_selfCheck :
    (sampleEnv false 6).selfCheck ⟨"head.geom", "head.cond", false⟩ = false ∧
    (main (sampleEnv false 6) ["om_assemble", "-HeadMat", "head.geom", "head.cond",
      "hm.mat"]).outcome = .exited 1 ∧
    (main (sampleEnv false 6) ssmLine).constructed =
      [.SurfSourceMat ⟨"head.geom", "head.cond", false⟩ "sources.tri" 3] ∧
    (main (sampleEnv false 6) ssmLine).saved =
      [(.SurfSourceMat ⟨"head.geom", "head.cond", false⟩ "sources.tri" 3, "ssm.mat")] ∧
    (main (sampleEnv false 6) ssmLine).outcome = .returned 0 ∧
    (∀ line ∈ uncheckedLines,
      .loadGeometry ⟨"head.geom", "head.cond", false⟩ ∈ (main (sampleEnv false 6) line).trace ∧
      .selfCheck ⟨"head.geom", "head.cond", false⟩ ∉ (main (sampleEnv false 6) line).trace ∧
      (main (sampleEnv false 6) line).constructed.length = 1 ∧
      (main (sampleEnv false 6) line).saved.length = 1 ∧
      (main (sampleEnv false 6) line).outcome = .returned 0) := by
  decide


theorem dispatch_corticalMat (env : Env) (argc : Int) (argv : List String) (old : Bool)
    (hopt : arg argv 1 ∈ ["-CorticalMat", "-CM", "-cm"])
    (hlo : 7 ≤ argc) (hhi : argc < 2147483648) :
    dispatch env argc argv old = corticalMatBranch env argc argv old := by
  have hu : toUnsigned (argc - 2) = (argc - 2).toNat :=
    toUnsigned_of_nonneg_of_lt _ (by omega) (by omega)
  have hge : ¬ ((argc - 2).toNat < 5) := by omega
  have hmin : minimum_nparms
      ["geometry file", "conductivity file", "sensors file", "domain name", "output file"] = 5 := by
    decide
  simp only [List.mem_cons, List.mem_singleton, List.not_mem_nil, or_false] at hopt
  rcases hopt with h | h | h <;>
    simp [dispatch, onOption, option, h, hu, hge, hmin]

theorem corticalMat_not_help (argv : List String)
    (hopt : arg argv 1 ∈ ["-CorticalMat", "-CM", "-cm"]) :
    arg argv 1 ∉ ["-h", "--help"] := by
  simp only [List.mem_cons, List.mem_singleton, List.not_mem_nil, or_false] at hopt
  rcases hopt with h | h | h <;> simp [h]

/-- The operator the `-CorticalMat` branch constructs from the locals left by the switch. -/
theorem main_corticalMat (env : Env) (argv : List String) (p : CorticalParams)
    (hint : (argv.length : Int) < 2147483648)
    (hopt : arg argv 1 ∈ ["-CorticalMat", "-CM", "-cm"])
    (hargs : 7 ≤ effectiveArgc argv)
    (hp : corticalSwitch env (effectiveArgc argv) argv = .ok p)
    (hgeo : env.selfCheck ⟨arg argv 2, arg argv 3, oldOrdering argv⟩ = true) :
    (main env argv).cortical =
      [if p.gamma > 0 then
        .CorticalMat2 ⟨arg argv 2, arg argv 3, oldOrdering argv⟩
          (.Head2EEGMat ⟨arg argv 2, arg argv 3, oldOrdering argv⟩ (.fromFile (arg argv 4)))
          (arg argv 5) gauss_order p.gamma p.filename
       else
        .CorticalMat ⟨arg argv 2, arg argv 3, oldOrdering argv⟩
          (.Head2EEGMat ⟨arg argv 2, arg argv 3, oldOrdering argv⟩ (.fromFile (arg argv 4)))
          (arg argv 5) gauss_order p.alpha p.beta p.filename] := by
  have hhi : effectiveArgc argv < 2147483648 := by
    have := effectiveArgc_le_length argv
    omega
  rw [main_eq_finish env argv (by omega) (corticalMat_not_help argv hopt),
    dispatch_corticalMat env _ argv _ hopt hargs hhi]
  simp only [corticalMatBranch, hp, hgeo]
  by_cases hg : p.gamma > 0 <;> by_cases ho : oldOrdering argv = true <;>
    simp [finish, start, Run.cortical, Run.constructed, Operator.isCorticalMat,
      Operator.isCorticalMat2, hg, ho]

/-- The six ways the switch of the `-CorticalMat` branch leaves without throwing. -/
theorem corticalSwitch_ok (env : Env) (argc : Int) (argv : List String) (p : CorticalParams)
    (hp : corticalSwitch env argc argv = .ok p) :
    (argc = 8 ∧ ∃ g, env.extract (arg argv 7) = some g ∧ p = ⟨-1, -1, g, ""⟩) ∨
    (argc = 8 ∧ env.extract (arg argv 7) = none ∧
      p = ⟨-1, -1, afterFailure env (arg argv 7) (-1), arg argv 7⟩) ∨
    (argc = 9 ∧ ∃ a b, env.extract (arg argv 7) = some a ∧ env.extract (arg argv 8) = some b ∧
      p = ⟨a, b, -1, ""⟩) ∨
    (argc = 9 ∧ ∃ a, env.extract (arg argv 7) = some a ∧ env.extract (arg argv 8) = none ∧
      p = ⟨a, afterFailure env (arg argv 8) (-1), a, arg argv 8⟩) ∨
    (argc = 10 ∧ ∃ a b, env.extract (arg argv 7) = some a ∧
      env.extract (arg argv 8) = some b ∧ p = ⟨a, b, -1, arg argv 9⟩) ∨
    (argc ≠ 8 ∧ argc ≠ 9 ∧ argc ≠ 10 ∧ p = ⟨-1, -1, -1, ""⟩) := by
  unfold corticalSwitch at hp
  by_cases h8 : argc = 8
  · rcases h7 : env.extract (arg argv 7) with _ | g <;> simp [h8, h7] at hp <;>
      simp [h8, ← hp]
  by_cases h9 : argc = 9
  · rcases h7 : env.extract (arg argv 7) with _ | a <;>
      rcases h8' : env.extract (arg argv 8) with _ | b <;>
      simp [h9, h7, h8'] at hp <;> simp [h9, ← hp]
  by_cases h10 : argc = 10
  · rcases h7 : env.extract (arg argv 7) with _ | a <;>
      rcases h8' : env.extract (arg argv 8) with _ | b <;>
      simp [h10, h7, h8'] at hp
    simp [h10, ← hp]
  · simp only [h8, h9, h10, if_false, Except.ok.injEq] at hp
    simp [h8, h9, h10, ← hp]

/-- C4 (the code departs from the claim): the single optional argument "1e999" does not
parse as a number (the extraction fails), yet a value is taken as gamma from it: the
failed extraction has left the largest `double` in `gamma`, the switch only adds the
file name, and CorticalMat2 is constructed with that gamma and with "1e999" as
intermediate file. On "km.bin", where the failed extraction stores zero, CorticalMat is
constructed as the claim says. -/
theorem corticalMat2_after_failed_extraction :
    effectiveArgc (cmLine ++ ["1e999"]) = 8 ∧
    (sampleEnv true 6).extract (arg (cmLine ++ ["1e999"]) 7) = none ∧
    (sampleEnv true 6).selfCheck (loadedGeometry (cmLine ++ ["1e999"])) = true ∧
    afterFailure (sampleEnv true 6) (arg (cmLine ++ ["1e999"]) 7) (-1) = DBL_MAX ∧
    0 < DBL_MAX ∧
    (main (sampleEnv true 6) (cmLine ++ ["1e999"])).cortical =
      [.CorticalMat2 ⟨"head.geom", "head.cond", false⟩
        (.Head2EEGMat ⟨"head.geom", "head.cond", false⟩ (.fromFile "eeg.patches")) "Brain" 3
        DBL_MAX "1e999"] ∧
    (main (sampleEnv true 6) (cmLine ++ ["km.bin"])).cortical =
      [.CorticalMat ⟨"head.geom", "head.cond", false⟩
        (.Head2EEGMat ⟨"head.geom", "head.cond", false⟩ (.fromFile "eeg.patches")) "Brain" 3
        (-1) (-1) "km.bin"] := by
  decide

/-- Where the claim on the selection holds: in the CorticalMat command, for every
argument list the switch accepts on which no failed extraction leaves a positive value
in `gamma`, and every geometry that passes the self check, exactly one of CorticalMat and
CorticalMat2 is constructed; CorticalMat2 is the one constructed exactly when the first
optional argument parses as a strictly positive number and the second is absent or is
the last one and does not parse; it then receives that number. -/
theorem corticalMat_selection_without_overflow (env : Env) (argv : List String)
    (hint : (argv.length : Int) < 2147483648)
    (hopt : arg argv 1 ∈ ["-CorticalMat", "-CM", "-cm"])
    (hargs : 7 ≤ effectiveArgc argv)
    (hacc : ∃ p, corticalSwitch env (effectiveArgc argv) argv = .ok p)
    (hfail : effectiveArgc argv = 8 → env.extract (arg argv 7) = none →
      afterFailure env (arg argv 7) (-1) ≤ 0)
    (hgeo : env.selfCheck (loadedGeometry argv) = true) :
    (main env argv).cortical.length = 1 ∧
    ((∃ op ∈ (main env argv).cortical, op.isCorticalMat2 = true) ↔
      ∃ g, 0 < g ∧ env.extract (arg argv 7) = some g ∧
        (effectiveArgc argv = 8 ∨
          (effectiveArgc argv = 9 ∧ env.extract (arg argv 8) = none))) ∧
    (∀ g, (∃ f, (main env argv).cortical =
          [.CorticalMat2 (loadedGeometry argv) (eegMat argv) (arg argv 5) gauss_order g f]) ↔
      (0 < g ∧ env.extract (arg argv 7) = some g ∧
        (effectiveArgc argv = 8 ∨
          (effectiveArgc argv = 9 ∧ env.extract (arg argv 8) = none)))) ∧
    (∀ a b, 9 ≤ effectiveArgc argv → env.extract (arg argv 7) = some a →
      env.extract (arg argv 8) = some b →
      ∀ op ∈ (main env argv).cortical, op.isCorticalMat = true) := by
  obtain ⟨p, hp⟩ := hacc
  have hm := main_corticalMat env argv p hint hopt hargs hp hgeo
  have hneg : ¬ ((-1 : ℚ) > 0) := by norm_num
  rcases corticalSwitch_ok env _ argv p hp with
    ⟨hc, g, h7, rfl⟩ | ⟨hc, h7, rfl⟩ | ⟨hc, a, b, h7, h8, rfl⟩ | ⟨hc, a, h7, h8, rfl⟩ |
    ⟨hc, a, b, h7, h8, rfl⟩ | ⟨h8, h9, h10, rfl⟩
  · by_cases hg : g > 0
    · simp only [hg, if_true] at hm
      simp [hm, hc, h7, Operator.isCorticalMat2, Operator.isCorticalMat]
      exact hg
    · simp only [hg, if_false] at hm
      simp [hm, hc, h7, Operator.isCorticalMat2, Operator.isCorticalMat]
      exact ⟨le_of_not_gt hg, fun g1 h1 e => hg (e ▸ h1)⟩
  · have h0 : ¬ (afterFailure env (arg argv 7) (-1) > 0) := not_lt.mpr (hfail hc h7)
    simp only [h0, if_false] at hm
    simp [hm, hc, h7, Operator.isCorticalMat2, Operator.isCorticalMat]
  · simp only [hneg, if_false] at hm
    simp [hm, hc, h7, h8, Operator.isCorticalMat2, Operator.isCorticalMat]
  · by_cases hg : a > 0
    · simp only [hg, if_true] at hm
      simp [hm, hc, h7, h8, Operator.isCorticalMat2, Operator.isCorticalMat]
      exact hg
    · simp only [hg, if_false] at hm
      simp [hm, hc, h7, h8, Operator.isCorticalMat2, Operator.isCorticalMat]
      exact ⟨le_of_not_gt hg, fun g1 h1 e => hg (e ▸ h1)⟩
  · simp only [hneg, if_false] at hm
    simp [hm, hc, h7, h8, Operator.isCorticalMat2, Operator.isCorticalMat]
  · simp only [hneg, if_false] at hm
    simp [hm, h8, h9, h10, Operator.isCorticalMat2, Operator.isCorticalMat]

/-- C5 (as stated, refuted): the single numeric optional parameter `-2`, given alone, does
not select CorticalMat2: CorticalMat is constructed, with alpha = beta = -1. And the
numeric parameter `3` followed by the file name "2nd_run.bin" does not select CorticalMat2
either: the extraction reads the leading 2 of the file name as beta, and CorticalMat is
constructed with alpha = 3, beta = 2 and no intermediate file. And on a geometry that
fails the self check the parameter `2` given alone constructs nothing. -/
theorem corticalMat2_not_for_negative_parameter :
    effectiveArgc (cmLine ++ ["-2"]) = 8 ∧
    (sampleEnv true 6).extract (arg (cmLine ++ ["-2"]) 7) = some (-2) ∧
    (sampleEnv true 6).selfCheck (loadedGeometry (cmLine ++ ["-2"])) = true ∧
    (main (sampleEnv true 6) (cmLine ++ ["-2"])).cortical =
      [.CorticalMat ⟨"head.geom", "head.cond", false⟩
        (.Head2EEGMat ⟨"head.geom", "head.cond", false⟩ (.fromFile "eeg.patches")) "Brain" 3
        (-1) (-1) ""] ∧
    effectiveArgc (cmLine ++ ["3", "2nd_run.bin"]) = 9 ∧
    (sampleEnv true 6).extract (arg (cmLine ++ ["3", "2nd_run.bin"]) 7) = some 3 ∧
    (main (sampleEnv true 6) (cmLine ++ ["3", "2nd_run.bin"])).cortical =
      [.CorticalMat ⟨"head.geom", "head.cond", false⟩
        (.Head2EEGMat ⟨"head.geom", "head.cond", false⟩ (.fromFile "eeg.patches")) "Brain" 3
        3 2 ""] ∧
    (sampleEnv false 6).extract (arg (cmLine ++ ["2"]) 7) = some 2 ∧
    (main (sampleEnv false 6) (cmLine ++ ["2"])).cortical = [] := by
  decide

/-- C5 (amended): in the CorticalMat command, on a geometry that passes the self check,
when the only optional argument is read as a number `g` by the stream extraction, or the
first of exactly two optional arguments is read as a number `g` and the extraction fails
on the second (a file name that does not begin with a number), and `g` is strictly
positive, CorticalMat2 is the operator constructed and it receives gamma = `g` (and the
second argument, if any, as intermediate file). -/
theorem corticalMat2_for_positive_parameter (env : Env) (argv : List String) (g : ℚ)
    (hopt : arg argv 1 ∈ ["-CorticalMat", "-CM", "-cm"])
    (hgeo : env.selfCheck (loadedGeometry argv) = true)
    (hshape : (effectiveArgc argv = 8 ∧ env.extract (arg argv 7) = some g) ∨
      (effectiveArgc argv = 9 ∧ env.extract (arg argv 7) = some g ∧
        env.extract (arg argv 8) = none))
    (hpos : 0 < g) :
    (main env argv).cortical =
      [.CorticalMat2 (loadedGeometry argv) (eegMat argv) (arg argv 5) gauss_order g
        (if effectiveArgc argv = 8 then "" else arg argv 8)] := by
  have hlen := length_le_effectiveArgc_succ argv
  rcases hshape with ⟨hc, h7⟩ | ⟨hc, h7, h8⟩
  · have hp : corticalSwitch env (effectiveArgc argv) argv = .ok ⟨-1, -1, g, ""⟩ := by
      simp [corticalSwitch, hc, h7]
    have hm := main_corticalMat env argv _ (by omega) hopt (by omega) hp hgeo
    simpa [hpos, hc] using hm
  · have hp : corticalSwitch env (effectiveArgc argv) argv =
        .ok ⟨g, afterFailure env (arg argv 8) (-1), g, arg argv 8⟩ := by
      simp [corticalSwitch, hc, h7, h8]
    have hm := main_corticalMat env argv _ (by omega) hopt (by omega) hp hgeo
    simpa [hpos, hc] using hm

theorem corticalMat2_for_positive_parameter_witness :
    (sampleEnv true 6).extract (arg (cmLine ++ ["2", "km.bin"]) 7) = some 2 ∧
    (main (sampleEnv true 6) (cmLine ++ ["2", "km.bin"])).cortical =
      [.CorticalMat2 ⟨"head.geom", "head.cond", false⟩
        (.Head2EEGMat ⟨"head.geom", "head.cond", false⟩ (.fromFile "eeg.patches")) "Brain" 3
        2 "km.bin"] :=
  ⟨by decide, corticalMat2_for_positive_parameter (sampleEnv true 6) (cmLine ++ ["2", "km.bin"]) 2
    (by decide) (by decide) (Or.inr (by decide)) (by decide)⟩

/-- C6 (as stated, refuted): with a file name only, "2nd_run.bin", CorticalMat is not
constructed: the extraction reads the leading 2 as gamma and CorticalMat2 is constructed
with gamma = 2 and no intermediate file. (With the only argument "1e999", on which the
extraction fails leaving the largest `double` in `gamma`, CorticalMat2 is constructed
too; and on a geometry that fails the self check nothing is constructed.) -/
theorem corticalMat_not_for_numbered_file_name :
    effectiveArgc (cmLine ++ ["2nd_run.bin"]) = 8 ∧
    (sampleEnv true 6).selfCheck (loadedGeometry (cmLine ++ ["2nd_run.bin"])) = true ∧
    (main (sampleEnv true 6) (cmLine ++ ["2nd_run.bin"])).cortical =
      [.CorticalMat2 ⟨"head.geom", "head.cond", false⟩
        (.Head2EEGMat ⟨"head.geom", "head.cond", false⟩ (.fromFile "eeg.patches")) "Brain" 3
        2 ""] ∧
    (sampleEnv true 6).extract "1e999" = none ∧
    (∀ op ∈ (main (sampleEnv true 6) (cmLine ++ ["1e999"])).cortical,
      op.isCorticalMat2 = true) ∧
    (main (sampleEnv false 6) cmLine).cortical = [] := by
  decide

/-- C6 (amended): in the CorticalMat command, on a geometry that passes the self check,
when the first and second optional arguments are read as numbers `a` and `b` by the
stream extraction (two optional arguments, or three with a trailing file name),
CorticalMat is the operator constructed, with alpha = `a` and beta = `b` whatever their
signs; when there is no optional argument, or a single one on which the extraction fails
without leaving a positive value in `gamma` (a file name that does not begin with a
number), CorticalMat is constructed with alpha = beta = -1. -/
theorem corticalMat_alpha_beta (env : Env) (argv : List String)
    (hopt : arg argv 1 ∈ ["-CorticalMat", "-CM", "-cm"])
    (hgeo : env.selfCheck (loadedGeometry argv) = true) :
    (∀ a b, effectiveArgc argv = 9 ∨ effectiveArgc argv = 10 →
      env.extract (arg argv 7) = some a → env.extract (arg argv 8) = some b →
      (main env argv).cortical =
        [.CorticalMat (loadedGeometry argv) (eegMat argv) (arg argv 5) gauss_order a b
          (if effectiveArgc argv = 10 then arg argv 9 else "")]) ∧
    (effectiveArgc argv = 7 ∨
        (effectiveArgc argv = 8 ∧ env.extract (arg argv 7) = none ∧
          afterFailure env (arg argv 7) (-1) ≤ 0) →
      (main env argv).cortical =
        [.CorticalMat (loadedGeometry argv) (eegMat argv) (arg argv 5) gauss_order (-1) (-1)
          (if effectiveArgc argv = 8 then arg argv 7 else "")]) := by
  have hlen := length_le_effectiveArgc_succ argv
  have hneg : ¬ ((-1 : ℚ) > 0) := by norm_num
  refine ⟨fun a b hc h7 h8 => ?_, fun hc => ?_⟩
  · rcases hc with hc | hc
    · have hp : corticalSwitch env (effectiveArgc argv) argv = .ok ⟨a, b, -1, ""⟩ := by
        simp [corticalSwitch, hc, h7, h8]
      have hm := main_corticalMat env argv _ (by omega) hopt (by omega) hp hgeo
      simpa [hneg, hc] using hm
    · have hp : corticalSwitch env (effectiveArgc argv) argv = .ok ⟨a, b, -1, arg argv 9⟩ := by
        simp [corticalSwitch, hc, h7, h8]
      have hm := main_corticalMat env argv _ (by omega) hopt (by omega) hp hgeo
      simpa [hneg, hc] using hm
  · rcases hc with hc | ⟨hc, h7, hle⟩
    · have hp : corticalSwitch env (effectiveArgc argv) argv = .ok ⟨-1, -1, -1, ""⟩ := by
        simp [corticalSwitch, hc]
      have hm := main_corticalMat env argv _ (by omega) hopt (by omega) hp hgeo
      simpa [hneg, hc] using hm
    · have hp : corticalSwitch env (effectiveArgc argv) argv =
          .ok ⟨-1, -1, afterFailure env (arg argv 7) (-1), arg argv 7⟩ := by
        simp [corticalSwitch, hc, h7]
      have h0 : ¬ (afterFailure env (arg argv 7) (-1) > 0) := not_lt.mpr hle
      have hm := main_corticalMat env argv _ (by omega) hopt (by omega) hp hgeo
      simpa [h0, hc] using hm

theorem corticalMat_alpha_beta_witness :
    (main (sampleEnv true 6) (cmLine ++ ["-2", "2", "km.bin"])).cortical =
      [.CorticalMat ⟨"head.geom", "head.cond", false⟩
        (.Head2EEGMat ⟨"head.geom", "head.cond", false⟩ (.fromFile "eeg.patches")) "Brain" 3
        (-2) 2 "km.bin"] ∧
    (main (sampleEnv true 6) (cmLine ++ ["km.bin"])).cortical =
      [.CorticalMat ⟨"head.geom", "head.cond", false⟩
        (.Head2EEGMat ⟨"head.geom", "head.cond", false⟩ (.fromFile "eeg.patches")) "Brain" 3
        (-1) (-1) "km.bin"] :=
  ⟨(corticalMat_alpha_beta (sampleEnv true 6) (cmLine ++ ["-2", "2", "km.bin"]) (by decide)
      (by decide)).1 (-2) 2 (Or.inr (by decide)) (by decide) (by decide),
   (corticalMat_alpha_beta (sampleEnv true 6) (cmLine ++ ["km.bin"]) (by decide)
      (by decide)).2 (Or.inr (by decide))⟩

/-- C7 (as stated, refuted): the file name "2nd_run.bin" is not itself a number, yet it is
not passed on: given alone, the extraction reads its leading 2 as gamma and the operator
constructed receives the empty intermediate file name; given after the gamma `2`, its
leading 2 is read as beta and the empty file name is passed again. On a geometry that
fails the self check no operator is constructed and no file name is passed. -/
theorem numbered_file_name_not_passed :
    effectiveArgc (cmLine ++ ["2nd_run.bin"]) = 8 ∧
    (sampleEnv true 6).selfCheck (loadedGeometry (cmLine ++ ["2nd_run.bin"])) = true ∧
    (main (sampleEnv true 6) (cmLine ++ ["2nd_run.bin"])).cortical.map
      Operator.intermediateFile = [some ""] ∧
    effectiveArgc (cmLine ++ ["2", "2nd_run.bin"]) = 9 ∧
    (main (sampleEnv true 6) (cmLine ++ ["2", "2nd_run.bin"])).cortical.map
      Operator.intermediateFile = [some ""] ∧
    (main (sampleEnv false 6) (cmLine ++ ["km.bin"])).cortical.map
      Operator.intermediateFile = [] := by
  decide

/-- C7 (amended): in the CorticalMat command, on a geometry that passes the self check:
in the shapes "file name alone" and "gamma followed by file name", a file name `f` on
which the stream extraction fails (it does not begin with a number) is passed unchanged
as the intermediate-matrix file name to the operator constructed (CorticalMat or
CorticalMat2); in the shape "alpha, beta followed by file name" every file name `f` is
passed unchanged; in the shapes without a file name (no optional argument, gamma alone,
alpha and beta alone) the empty string is passed. -/
theorem corticalMat_intermediate_file (env : Env) (argv : List String)
    (hopt : arg argv 1 ∈ ["-CorticalMat", "-CM", "-cm"])
    (hgeo : env.selfCheck (loadedGeometry argv) = true) :
    (∀ f,
      (effectiveArgc argv = 8 ∧ arg argv 7 = f ∧ env.extract f = none) ∨
      (effectiveArgc argv = 9 ∧ (env.extract (arg argv 7)).isSome ∧ arg argv 8 = f ∧
        env.extract f = none) ∨
      (effectiveArgc argv = 10 ∧ (env.extract (arg argv 7)).isSome ∧
        (env.extract (arg argv 8)).isSome ∧ arg argv 9 = f) →
      (main env argv).cortical.map Operator.intermediateFile = [some f]) ∧
    (effectiveArgc argv = 7 ∨
      (effectiveArgc argv = 8 ∧ (env.extract (arg argv 7)).isSome) ∨
      (effectiveArgc argv = 9 ∧ (env.extract (arg argv 7)).isSome ∧
        (env.extract (arg argv 8)).isSome) →
      (main env argv).cortical.map Operator.intermediateFile = [some ""]) := by
  have hlen := length_le_effectiveArgc_succ argv
  refine ⟨fun f hshape => ?_, fun hshape => ?_⟩
  · rcases hshape with ⟨hc, rfl, hf⟩ | ⟨hc, h7, rfl, hf⟩ | ⟨hc, h7, h8, rfl⟩
    · have hp : corticalSwitch env (effectiveArgc argv) argv =
          .ok ⟨-1, -1, afterFailure env (arg argv 7) (-1), arg argv 7⟩ := by
        simp [corticalSwitch, hc, hf]
      rw [main_corticalMat env argv _ (by omega) hopt (by omega) hp hgeo]
      split <;> rfl
    · obtain ⟨g, h7⟩ := Option.isSome_iff_exists.mp h7
      have hp : corticalSwitch env (effectiveArgc argv) argv =
          .ok ⟨g, afterFailure env (arg argv 8) (-1), g, arg argv 8⟩ := by
        simp [corticalSwitch, hc, h7, hf]
      rw [main_corticalMat env argv _ (by omega) hopt (by omega) hp hgeo]
      split <;> rfl
    · obtain ⟨a, h7⟩ := Option.isSome_iff_exists.mp h7
      obtain ⟨b, h8⟩ := Option.isSome_iff_exists.mp h8
      have hp : corticalSwitch env (effectiveArgc argv) argv = .ok ⟨a, b, -1, arg argv 9⟩ := by
        simp [corticalSwitch, hc, h7, h8]
      rw [main_corticalMat env argv _ (by omega) hopt (by omega) hp hgeo]
      split <;> rfl
  · rcases hshape with hc | ⟨hc, h7⟩ | ⟨hc, h7, h8⟩
    · have hp : corticalSwitch env (effectiveArgc argv) argv = .ok ⟨-1, -1, -1, ""⟩ := by
        simp [corticalSwitch, hc]
      rw [main_corticalMat env argv _ (by omega) hopt (by omega) hp hgeo]
      split <;> rfl
    · obtain ⟨g, h7⟩ := Option.isSome_iff_exists.mp h7
      have hp : corticalSwitch env (effectiveArgc argv) argv = .ok ⟨-1, -1, g, ""⟩ := by
        simp [corticalSwitch, hc, h7]
      rw [main_corticalMat env argv _ (by omega) hopt (by omega) hp hgeo]
      split <;> rfl
    · obtain ⟨a, h7⟩ := Option.isSome_iff_exists.mp h7
      obtain ⟨b, h8⟩ := Option.isSome_iff_exists.mp h8
      have hp : corticalSwitch env (effectiveArgc argv) argv = .ok ⟨a, b, -1, ""⟩ := by
        simp [corticalSwitch, hc, h7, h8]
      rw [main_corticalMat env argv _ (by omega) hopt (by omega) hp hgeo]
      split <;> rfl

theorem corticalMat_intermediate_file_witness :
    (sampleEnv true 6).extract "km.bin" = none ∧
    (main (sampleEnv true 6) (cmLine ++ ["2", "km.bin"])).cortical.map
      Operator.intermediateFile = [some "km.bin"] ∧
    (main (sampleEnv true 6) (cmLine ++ ["-2", "2", "2nd_run.bin"])).cortical.map
      Operator.intermediateFile = [some "2nd_run.bin"] ∧
    (main (sampleEnv true 6) (cmLine ++ ["-2", "2"])).cortical.map
      Operator.intermediateFile = [some ""] :=
  ⟨by decide,
   (corticalMat_intermediate_file (sampleEnv true 6) (cmLine ++ ["2", "km.bin"]) (by decide)
      (by decide)).1 "km.bin" (Or.inr (Or.inl (by decide))),
   (corticalMat_intermediate_file (sampleEnv true 6) (cmLine ++ ["-2", "2", "2nd_run.bin"])
      (by decide) (by decide)).1 "2nd_run.bin" (Or.inr (Or.inr (by decide))),
   (corticalMat_intermediate_file (sampleEnv true 6) (cmLine ++ ["-2", "2"]) (by decide)
      (by decide)).2 (Or.inr (Or.inr (by decide)))⟩

theorem dispatch_head2ECoGMat (env : Env) (argc : Int) (argv : List String) (old : Bool)
    (hopt : arg argv 1 ∈ ["-Head2ECoGMat", "-H2ECogM", "-H2ECOGM", "-h2ecogm"])
    (hlo : 6 ≤ argc) (hhi : argc < 2147483648) :
    dispatch env argc argv old = head2ECoGMatBranch argc argv old := by
  have hu : toUnsigned (argc - 2) = (argc - 2).toNat :=
    toUnsigned_of_nonneg_of_lt _ (by omega) (by omega)
  have hge : ¬ ((argc - 2).toNat < 4) := by omega
  have hmin : minimum_nparms
      ["geometry file", "conductivity file", "ECoG electrodes positions file",
       "[name of the interface for EcoG]", "output file"] = 4 := by
    decide
  simp only [List.mem_cons, List.mem_singleton, List.not_mem_nil, or_false] at hopt
  rcases hopt with h | h | h | h <;>
    simp [dispatch, onOption, option, h, hu, hge, hmin]

theorem head2ECoGMat_not_help (argv : List String)
    (hopt : arg argv 1 ∈ ["-Head2ECoGMat", "-H2ECogM", "-H2ECOGM", "-h2ecogm"]) :
    arg argv 1 ∉ ["-h", "--help"] := by
  simp only [List.mem_cons, List.mem_singleton, List.not_mem_nil, or_false] at hopt
  rcases hopt with h | h | h | h <;> simp [h]

/-- C8: in the Head2ECoGMat command, with exactly four arguments after the option
(geometry, conductivity, electrodes, output) the operator is built on
`geo.innermost_interface()`, the three lines of the warning (that the electrodes are
assumed on the inner interface) are written to `std::cerr` and the matrix is saved to
the fourth argument; with exactly five arguments the operator is built on
`geo.interface(name)`, `name` being the fourth argument, nothing is written to
`std::cerr` and the matrix is saved to the fifth argument. -/
theorem head2ECoGMat_interface (env : Env) (argv : List String)
    (hopt : arg argv 1 ∈ ["-Head2ECoGMat", "-H2ECogM", "-H2ECOGM", "-h2ecogm"]) :
    (effectiveArgc argv = 6 →
      (main env argv).constructed =
        [.Head2ECoGMat (loadedGeometry argv) (.fromFile (arg argv 4))
          (.innermost_interface (loadedGeometry argv))] ∧
      (main env argv).saved =
        [(.Head2ECoGMat (loadedGeometry argv) (.fromFile (arg argv 4))
          (.innermost_interface (loadedGeometry argv)), arg argv 5)] ∧
      (main env argv).cerr =
        ["Warning: we assume that ECoG electrodes are placed on the inner interface.",
         "This is only valid for nested files. Consider specifying an interface as a name",
         " right after the electrode position file."] ∧
      (main env argv).outcome = .returned 0) ∧
    (effectiveArgc argv = 7 →
      (main env argv).constructed =
        [.Head2ECoGMat (loadedGeometry argv) (.fromFile (arg argv 4))
          (.interface (loadedGeometry argv) (arg argv 5))] ∧
      (main env argv).saved =
        [(.Head2ECoGMat (loadedGeometry argv) (.fromFile (arg argv 4))
          (.interface (loadedGeometry argv) (arg argv 5)), arg argv 6)] ∧
      (main env argv).cerr = [] ∧
      (main env argv).outcome = .returned 0) := by
  have hlen := effectiveArgc_le_length argv
  have hlen' := length_le_effectiveArgc_succ argv
  constructor
  · intro hc
    rw [main_eq_finish env argv (by omega) (head2ECoGMat_not_help argv hopt),
      dispatch_head2ECoGMat env _ argv _ hopt (by omega) (by omega)]
    by_cases ho : oldOrdering argv = true <;>
      simp [head2ECoGMatBranch, finish, start, Run.constructed, Run.saved, Run.cerr,
        ecogWarning, hc, ho]
  · intro hc
    rw [main_eq_finish env argv (by omega) (head2ECoGMat_not_help argv hopt),
      dispatch_head2ECoGMat env _ argv _ hopt (by omega) (by omega)]
    by_cases ho : oldOrdering argv = true <;>
      simp [head2ECoGMatBranch, finish, start, Run.constructed, Run.saved, Run.cerr,
        ecogWarning, hc, ho]

theorem head2ECoGMat_interface_witness :
    ((main (sampleEnv true 6) ecogOldLine).constructed =
      [.Head2ECoGMat ⟨"head.geom", "head.cond", false⟩ (.fromFile "ecog.patches")
        (.innermost_interface ⟨"head.geom", "head.cond", false⟩)] ∧
    (main (sampleEnv true 6) ecogOldLine).saved =
      [(.Head2ECoGMat ⟨"head.geom", "head.cond", false⟩ (.fromFile "ecog.patches")
        (.innermost_interface ⟨"head.geom", "head.cond", false⟩), "h2ecog.mat")] ∧
    (main (sampleEnv true 6) ecogOldLine).cerr =
      ["Warning: we assume that ECoG electrodes are placed on the inner interface.",
       "This is only valid for nested files. Consider specifying an interface as a name",
       " right after the electrode position file."] ∧
    (main (sampleEnv true 6) ecogOldLine).outcome = .returned 0) ∧
    ((main (sampleEnv true 6) ecogLine).constructed =
      [.Head2ECoGMat ⟨"head.geom", "head.cond", false⟩ (.fromFile "ecog.patches")
        (.interface ⟨"head.geom", "head.cond", false⟩ "Cortex")] ∧
    (main (sampleEnv true 6) ecogLine).saved =
      [(.Head2ECoGMat ⟨"head.geom", "head.cond", false⟩ (.fromFile "ecog.patches")
        (.interface ⟨"head.geom", "head.cond", false⟩ "Cortex"), "h2ecog.mat")] ∧
    (main (sampleEnv true 6) ecogLine).cerr = [] ∧
    (main (sampleEnv true 6) ecogLine).outcome = .returned 0) :=
  ⟨(head2ECoGMat_interface (sampleEnv true 6) ecogOldLine (by decide)).1 (by decide),
   (head2ECoGMat_interface (sampleEnv true 6) ecogLine (by decide)).2 (by decide)⟩

/-- C9 (the code departs from the claim): with the domain name given right after the
output matrix (six arguments after the option) DipSource2InternalPotMat is constructed
with the empty domain name, because the branch tests `argc==9` where this command line
has `argc==8`; `argv[7]` is used as domain name only when one more argument follows. -/
theorem dipSource2InternalPotMat_drops_domain_name :
    (main (sampleEnv true 6) ds2ipmLine).constructed =
      [.DipSource2InternalPotMat ⟨"head.geom", "head.cond", false⟩ "dipoles.txt" "points.txt"
        ""] ∧
    (main (sampleEnv true 6) ds2ipmLine).saved =
      [(.DipSource2InternalPotMat ⟨"head.geom", "head.cond", false⟩ "dipoles.txt" "points.txt"
        "", "ds2ipm.mat")] ∧
    (main (sampleEnv true 6) (ds2ipmLine ++ ["more"])).constructed =
      [.DipSource2InternalPotMat ⟨"head.geom", "head.cond", false⟩ "dipoles.txt" "points.txt"
        "Brain"] := by
  decide

theorem arg_set_of_ne (argv : List String) (o : String) (i : Nat) (h : i ≠ 1) :
    arg (argv.set 1 o) i = arg argv i := by
  simp [arg, List.getD_eq_getElem?_getD, List.getElem?_set_ne (Ne.symm h)]

theorem arg_set_self (argv : List String) (o : String) (h : 1 < argv.length) :
    arg (argv.set 1 o) 1 = o := by
  simp [arg, List.getD_eq_getElem?_getD, h]

theorem oldOrdering_set (argv : List String) (o : String) (h : 3 ≤ argv.length) :
    oldOrdering (argv.set 1 o) = oldOrdering argv := by
  unfold oldOrdering
  rw [List.length_set, arg_set_of_ne argv o _ (by omega)]

theorem effectiveArgc_set (argv : List String) (o : String) (h : 3 ≤ argv.length) :
    effectiveArgc (argv.set 1 o) = effectiveArgc argv := by
  unfold effectiveArgc
  rw [oldOrdering_set argv o h, List.length_set]

/-- C10: in the DipSourceMat command on a 6-column dipole matrix, DipSourceMat is
constructed with quadrature order 3, with adaptive integration disabled exactly when the
option is spelled -DipSourceMatNoAdapt, -DSMNA or -dsmna, and with the domain name equal
to the fifth argument when exactly five arguments follow the option and empty otherwise;
it is saved to the fourth argument. Replacing the option by any other of the six
spellings changes nothing but the adaptive flag: geometry, dipoles, domain name and
output file are the same. -/
theorem dipSourceMat_arguments (env : Env) (argv : List String)
    (hint : (argv.length : Int) < 2147483648)
    (hopt : arg argv 1 ∈
      ["-DipSourceMat", "-DSM", "-dsm", "-DipSourceMatNoAdapt", "-DSMNA", "-dsmna"])
    (hargs : 6 ≤ effectiveArgc argv) (hncol : env.ncol (arg argv 4) = 6) :
    gauss_order = 3 ∧
    (∀ spelling ∈
        ["-DipSourceMat", "-DSM", "-dsm", "-DipSourceMatNoAdapt", "-DSMNA", "-dsmna"],
      (main env (argv.set 1 spelling)).constructed =
        [.DipSourceMat (loadedGeometry argv) (arg argv 4) gauss_order
          (!decide (spelling ∈ ["-DipSourceMatNoAdapt", "-DSMNA", "-dsmna"]))
          (if effectiveArgc argv = 7 then arg argv 6 else "")] ∧
      (main env (argv.set 1 spelling)).saved =
        [(.DipSourceMat (loadedGeometry argv) (arg argv 4) gauss_order
          (!decide (spelling ∈ ["-DipSourceMatNoAdapt", "-DSMNA", "-dsmna"]))
          (if effectiveArgc argv = 7 then arg argv 6 else ""), arg argv 5)]) ∧
    (main env argv).constructed =
      [.DipSourceMat (loadedGeometry argv) (arg argv 4) gauss_order
        (!decide (arg argv 1 ∈ ["-DipSourceMatNoAdapt", "-DSMNA", "-dsmna"]))
        (if effectiveArgc argv = 7 then arg argv 6 else "")] ∧
    (main env argv).saved =
      [(.DipSourceMat (loadedGeometry argv) (arg argv 4) gauss_order
        (!decide (arg argv 1 ∈ ["-DipSourceMatNoAdapt", "-DSMNA", "-dsmna"]))
        (if effectiveArgc argv = 7 then arg argv 6 else ""), arg argv 5)] := by
  have hlen := effectiveArgc_le_length argv
  have h3 : 3 ≤ argv.length := by omega
  have hself := main_dipSourceMat_six env argv hint hopt hargs hncol
  refine ⟨rfl, fun spelling hs => ?_, hself.1, hself.2.1⟩
  have h1 : arg (argv.set 1 spelling) 1 = spelling := arg_set_self argv spelling (by omega)
  have hset := main_dipSourceMat_six env (argv.set 1 spelling)
    (by rw [List.length_set]; exact hint) (by rw [h1]; exact hs)
    (by rw [effectiveArgc_set argv spelling h3]; exact hargs)
    (by rw [arg_set_of_ne argv spelling 4 (by decide)]; exact hncol)
  rw [h1, effectiveArgc_set argv spelling h3, oldOrdering_set argv spelling h3,
    arg_set_of_ne argv spelling 2 (by decide), arg_set_of_ne argv spelling 3 (by decide),
    arg_set_of_ne argv spelling 4 (by decide), arg_set_of_ne argv spelling 5 (by decide),
    arg_set_of_ne argv spelling 6 (by decide)] at hset
  exact ⟨hset.1, hset.2.1⟩

theorem dipSourceMat_arguments_witness :
    (main (sampleEnv true 6) (dsmLine ++ ["Brain"])).constructed =
      [.DipSourceMat ⟨"head.geom", "head.cond", false⟩ "dipoles.txt" 3 true "Brain"] ∧
    (main (sampleEnv true 6) ((dsmLine ++ ["Brain"]).set 1 "-dsmna")).constructed =
      [.DipSourceMat ⟨"head.geom", "head.cond", false⟩ "dipoles.txt" 3 false "Brain"] :=
  have h := dipSourceMat_arguments (sampleEnv true 6) (dsmLine ++ ["Brain"]) (by decide)
    (by decide) (by decide) (by decide)
  ⟨h.2.2.1, (h.2.1 "-dsmna" (by decide)).1⟩

/-- C11: in the CorticalMat command, with two optional arguments of which the first does
not parse as a number, or three optional arguments of which the first or the second does
not parse, the run ends with the runtime error "given parameter is not a number"; nothing
has happened but the printing of the version and of the command line: no geometry and no
sensors are loaded, no operator is constructed and no matrix is saved. -/
theorem corticalMat_parameter_not_a_number (env : Env) (argv : List String)
    (hopt : arg argv 1 ∈ ["-CorticalMat", "-CM", "-cm"])
    (hshape : (effectiveArgc argv = 9 ∧ env.extract (arg argv 7) = none) ∨
      (effectiveArgc argv = 10 ∧
        (env.extract (arg argv 7) = none ∨ env.extract (arg argv 8) = none))) :
    (main env argv).outcome = .thrown "given parameter is not a number" ∧
    (main env argv).trace = start argv ++ [.print_commandline (effectiveArgc argv) argv] ∧
    (∀ geo, .loadGeometry geo ∉ (main env argv).trace) ∧
    (∀ s, .loadSensors s ∉ (main env argv).trace) ∧
    (main env argv).constructed = [] ∧
    (main env argv).saved = [] := by
  have hlen := length_le_effectiveArgc_succ argv
  have hsw : corticalSwitch env (effectiveArgc argv) argv =
      .error "given parameter is not a number" := by
    rcases hshape with ⟨hc, h7⟩ | ⟨hc, h7 | h8⟩
    · simp [corticalSwitch, hc, h7]
    · simp [corticalSwitch, hc, h7]
    · rcases h7 : env.extract (arg argv 7) with _ | a <;> simp [corticalSwitch, hc, h7, h8]
  have hargs : 7 ≤ effectiveArgc argv := by
    rcases hshape with ⟨hc, _⟩ | ⟨hc, _⟩ <;> omega
  rw [main_eq_finish env argv (by omega) (corticalMat_not_help argv hopt),
    dispatch_corticalMat env _ argv _ hopt hargs (by omega)]
  simp only [corticalMatBranch, hsw]
  by_cases ho : oldOrdering argv = true <;>
    simp [finish, start, Run.constructed, Run.saved, ho]

theorem corticalMat_parameter_not_a_number_witness :
    (effectiveArgc (cmLine ++ ["2", "km.bin", "out.bin"]) = 10 ∧
      (sampleEnv true 6).extract (arg (cmLine ++ ["2", "km.bin", "out.bin"]) 8) = none) ∧
    (main (sampleEnv true 6) (cmLine ++ ["2", "km.bin", "out.bin"])).outcome =
      .thrown "given parameter is not a number" ∧
    (main (sampleEnv true 6) (cmLine ++ ["2", "km.bin", "out.bin"])).constructed = [] :=
  have h := corticalMat_parameter_not_a_number (sampleEnv true 6)
    (cmLine ++ ["2", "km.bin", "out.bin"]) (by decide) (Or.inr ⟨by decide, Or.inr (by decide)⟩)
  ⟨⟨by decide, by decide⟩, h.1, h.2.2.2.2.1⟩

theorem toUnsigned_le (n : Int) (h0 : 0 ≤ n) : (toUnsigned n : Int) ≤ n := by
  unfold toUnsigned
  omega

/-- The decrement loop of `option`, started at a value `m` that fits an `unsigned` and is
at least the number of bracketed descriptions, ends at `m` minus that number. -/
theorem foldl_minimum_nparms (files : List String) (m : Nat) (hm : m < 4294967296)
    (hb : files.countP (fun f => decide (f.front = Char.ofNat 91)) ≤ m) :
    files.foldl
      (fun m f => if f.front = Char.ofNat 91 then (m + 4294967295) % 4294967296 else m) m =
      m - files.countP (fun f => decide (f.front = Char.ofNat 91)) := by
  induction files generalizing m with
  | nil => simp
  | cons f rest ih =>
    rw [List.countP_cons] at hb
    rw [List.foldl_cons, List.countP_cons]
    by_cases hf : f.front = Char.ofNat 91
    · simp only [hf, decide_True, if_true] at hb ⊢
      have hm1 : (m + 4294967295) % 4294967296 = m - 1 := by omega
      rw [hm1, ih (m - 1) (by omega) (by omega)]
      omega
    · simp only [hf, decide_False, if_false] at hb ⊢
      rw [ih m hm (by simpa using hb)]
      simp

theorem minimum_nparms_eq (files : List String) (hfiles : files.length < 4294967296) :
    minimum_nparms files = requiredArguments files := by
  have hsplit := List.length_eq_countP_add_countP
    (fun f : String => decide (f.front = Char.ofNat 91)) files
  have hle : files.countP (fun f => decide (f.front = Char.ofNat 91)) ≤ files.length :=
    List.countP_le_length _
  unfold minimum_nparms
  rw [Nat.mod_eq_of_lt hfiles, foldl_minimum_nparms files _ hfiles hle]
  have hreq : requiredArguments files =
      files.countP (fun a => decide ¬ (decide (a.front = Char.ofNat 91)) = true) := by
    unfold requiredArguments
    congr 1
    funext a
    simp
  omega

/-- C12: for an `int` `argc >= 2` and a list of file descriptions whose size fits the
`unsigned` counter, `minimum_nparms` is exactly the number of descriptions that do not
start with an opening bracket (the decrements never wrap), and `option` returns false
when `argv[1]` is none of the spellings; when it is one of them `option` returns true
if `argc-2` is at least that number and ends the process with status 1 otherwise, so that
it returns true only with at least the required number of arguments. -/
theorem option_contract (argc : Int) (argv options files : List String)
    (hargc : 2 ≤ argc) (hint : argc < 2147483648) (hfiles : files.length < 4294967296) :
    minimum_nparms files = requiredArguments files ∧
    (arg argv 1 ∉ options → option argc argv options files = .returns false) ∧
    (arg argv 1 ∈ options → (requiredArguments files : Int) ≤ argc - 2 →
      option argc argv options files = .returns true) ∧
    (arg argv 1 ∈ options → argc - 2 < (requiredArguments files : Int) →
      option argc argv options files = .exits 1) ∧
    (option argc argv options files = .returns true →
      (requiredArguments files : Int) ≤ argc - 2) := by
  have hmin := minimum_nparms_eq files hfiles
  have hu : toUnsigned (argc - 2) = (argc - 2).toNat :=
    toUnsigned_of_nonneg_of_lt _ (by omega) (by omega)
  refine ⟨hmin, option_of_not_mem argc argv options files, ?_, ?_, ?_⟩
  · intro hmem hreq
    rw [option_of_mem argc argv options files hmem, hmin, hu]
    have : ¬ ((argc - 2).toNat < requiredArguments files) := by omega
    simp [this]
  · intro hmem hreq
    rw [option_of_mem argc argv options files hmem, hmin, hu]
    have : (argc - 2).toNat < requiredArguments files := by omega
    simp [this]
  · intro htrue
    by_cases hmem : arg argv 1 ∈ options
    · rw [option_of_mem argc argv options files hmem, hmin, hu] at htrue
      by_cases hlt : (argc - 2).toNat < requiredArguments files
      · simp [hlt] at htrue
      · omega
    · rw [option_of_not_mem argc argv options files hmem] at htrue
      simp at htrue

theorem option_contract_witness :
    option 5 ecogLine ["-Head2ECoGMat", "-H2ECogM", "-H2ECOGM", "-h2ecogm"]
      ["geometry file", "conductivity file", "ECoG electrodes positions file",
       "[name of the interface for EcoG]", "output file"] = .exits 1 ∧
    option 6 ecogLine ["-Head2ECoGMat", "-H2ECogM", "-H2ECOGM", "-h2ecogm"]
      ["geometry file", "conductivity file", "ECoG electrodes positions file",
       "[name of the interface for EcoG]", "output file"] = .returns true :=
  ⟨(option_contract 5 ecogLine _ _ (by decide) (by decide) (by decide)).2.2.2.1
      (by decide) (by decide),
   (option_contract 6 ecogLine _ _ (by decide) (by decide) (by decide)).2.2.1
      (by decide) (by decide)⟩

theorem option_congr (argc : Int) (argv argv' options files : List String)
    (h1 : arg argv' 1 = arg argv 1) :
    option argc argv' options files = option argc argv options files := by
  induction options with
  | nil => rfl
  | cons s rest ih => simp [option, h1, ih]

/-- One link of the chain gives the same result on two argument vectors when `argv[1]`
is the same, the bodies agree once the argument count has passed the check of `option`,
and the rest of the chain agrees. -/
theorem onOption_congr (argc : Int) (argv argv' options files : List String)
    (body body' otherwise otherwise' : Branch)
    (h1 : arg argv' 1 = arg argv 1)
    (hbody : ∀ k, minimum_nparms files = k → ¬ toUnsigned (argc - 2) < k → body' = body)
    (hother : otherwise' = otherwise) :
    onOption argc argv' options files body' otherwise' =
      onOption argc argv options files body otherwise := by
  unfold onOption
  rw [option_congr argc argv argv' options files h1, h1, hother]
  by_cases hmem : arg argv 1 ∈ options
  · rw [option_of_mem _ _ _ _ hmem]
    by_cases hlt : toUnsigned (argc - 2) < minimum_nparms files
    · simp [hlt]
    · simp [hlt, hbody _ rfl hlt]
  · rw [option_of_not_mem _ _ _ _ hmem]

theorem corticalSwitch_congr (env : Env) (argc : Int) (argv argv' : List String)
    (h : ∀ i : Nat, (i : Int) < argc → arg argv' i = arg argv i) :
    corticalSwitch env argc argv' = corticalSwitch env argc argv := by
  unfold corticalSwitch
  by_cases h8 : argc = 8
  · simp only [h8, if_true, h 7 (by omega)]
  by_cases h9 : argc = 9
  · simp only [h8, h9, if_true, if_false, h 7 (by omega), h 8 (by omega)]
  by_cases h10 : argc = 10
  · simp only [h8, h9, h10, if_true, if_false, h 7 (by omega), h 8 (by omega),
      h 9 (by omega)]
  · simp only [h8, h9, h10, if_false]

theorem corticalMatBranch_congr (env : Env) (argc : Int) (argv argv' : List String)
    (old : Bool) (hargc : 7 ≤ argc)
    (h : ∀ i : Nat, (i : Int) < argc → arg argv' i = arg argv i) :
    corticalMatBranch env argc argv' old = corticalMatBranch env argc argv old := by
  simp only [corticalMatBranch, corticalSwitch_congr env argc argv argv' h, h 2 (by omega),
    h 3 (by omega), h 4 (by omega), h 5 (by omega), h 6 (by omega)]

theorem dipSourceMatBranch_congr (env : Env) (argc : Int) (argv argv' : List String)
    (old : Bool) (hargc : 6 ≤ argc)
    (h : ∀ i : Nat, (i : Int) < argc → arg argv' i = arg argv i) :
    dipSourceMatBranch env argc argv' old = dipSourceMatBranch env argc argv old := by
  have h1 := h 1 (by omega)
  by_cases h7 : argc = 7
  · simp only [dipSourceMatBranch, h7, if_true, option_congr _ argv argv' _ _ h1, h1,
      h 2 (by omega), h 3 (by omega), h 4 (by omega), h 5 (by omega), h 6 (by omega)]
  · simp only [dipSourceMatBranch, h7, if_false, option_congr _ argv argv' _ _ h1, h1,
      h 2 (by omega), h 3 (by omega), h 4 (by omega), h 5 (by omega)]

theorem head2ECoGMatBranch_congr (argc : Int) (argv argv' : List String)
    (old : Bool) (hargc : 6 ≤ argc)
    (h : ∀ i : Nat, (i : Int) < argc → arg argv' i = arg argv i) :
    head2ECoGMatBranch argc argv' old = head2ECoGMatBranch argc argv old := by
  by_cases h6 : argc = 6
  · simp [head2ECoGMatBranch, h6, h 2 (by omega), h 3 (by omega), h 4 (by omega),
      h 5 (by omega)]
  · simp [head2ECoGMatBranch, h6, h 2 (by omega), h 3 (by omega), h 4 (by omega),
      h 5 (by omega), h 6 (by omega)]

theorem dipSource2InternalPotMatBranch_congr (argc : Int) (argv argv' : List String)
    (old : Bool) (hargc : 7 ≤ argc)
    (h : ∀ i : Nat, (i : Int) < argc → arg argv' i = arg argv i) :
    dipSource2InternalPotMatBranch argc argv' old =
      dipSource2InternalPotMatBranch argc argv old := by
  by_cases h9 : argc = 9
  · simp only [dipSource2InternalPotMatBranch, h9, if_true, h 2 (by omega), h 3 (by omega),
      h 4 (by omega), h 5 (by omega), h 6 (by omega), h 7 (by omega)]
  · simp only [dipSource2InternalPotMatBranch, h9, if_false, h 2 (by omega), h 3 (by omega),
      h 4 (by omega), h 5 (by omega), h 6 (by omega)]

/-- The chain gives the same result on two argument vectors that agree below `argc`:
no branch depends on a position at or past the argument count. -/
theorem dispatch_congr_below (env : Env) (argc : Int) (argv argv' : List String) (old : Bool)
    (hargc : 2 ≤ argc)
    (h : ∀ i : Nat, (i : Int) < argc → arg argv' i = arg argv i) :
    dispatch env argc argv' old = dispatch env argc argv old := by
  have hu := toUnsigned_le (argc - 2) (by omega)
  have h1 := h 1 (by omega)
  unfold dispatch
  refine onOption_congr _ _ _ _ _ _ _ _ _ h1 (fun k hk hmin => ?_) ?_
  · obtain rfl : k = 3 := hk.symm.trans (by decide)
    simp only [headMatBranch, h 2 (by omega), h 3 (by omega), h 4 (by omega)]
  refine onOption_congr _ _ _ _ _ _ _ _ _ h1 (fun k hk hmin => ?_) ?_
  · obtain rfl : k = 5 := hk.symm.trans (by decide)
    exact corticalMatBranch_congr env argc argv argv' old (by omega) h
  refine onOption_congr _ _ _ _ _ _ _ _ _ h1 (fun k hk hmin => ?_) ?_
  · obtain rfl : k = 4 := hk.symm.trans (by decide)
    simp only [surfSourceMatBranch, h 2 (by omega), h 3 (by omega), h 4 (by omega),
        h 5 (by omega)]
  refine onOption_congr _ _ _ _ _ _ _ _ _ h1 (fun k hk hmin => ?_) ?_
  · obtain rfl : k = 4 := hk.symm.trans (by decide)
    exact dipSourceMatBranch_congr env argc argv argv' old (by omega) h
  refine onOption_congr _ _ _ _ _ _ _ _ _ h1 (fun k hk hmin => ?_) ?_
  · obtain rfl : k = 4 := hk.symm.trans (by decide)
    simp only [eitSourceMatBranch, h 2 (by omega), h 3 (by omega), h 4 (by omega),
        h 5 (by omega)]
  refine onOption_congr _ _ _ _ _ _ _ _ _ h1 (fun k hk hmin => ?_) ?_
  · obtain rfl : k = 4 := hk.symm.trans (by decide)
    simp only [head2EEGMatBranch, h 2 (by omega), h 3 (by omega), h 4 (by omega),
        h 5 (by omega)]
  refine onOption_congr _ _ _ _ _ _ _ _ _ h1 (fun k hk hmin => ?_) ?_
  · obtain rfl : k = 4 := hk.symm.trans (by decide)
    exact head2ECoGMatBranch_congr argc argv argv' old (by omega) h
  refine onOption_congr _ _ _ _ _ _ _ _ _ h1 (fun k hk hmin => ?_) ?_
  · obtain rfl : k = 4 := hk.symm.trans (by decide)
    simp only [head2MEGMatBranch, h 2 (by omega), h 3 (by omega), h 4 (by omega),
        h 5 (by omega)]
  refine onOption_congr _ _ _ _ _ _ _ _ _ h1 (fun k hk hmin => ?_) ?_
  · obtain rfl : k = 3 := hk.symm.trans (by decide)
    simp only [surfSource2MEGMatBranch, h 2 (by omega), h 3 (by omega), h 4 (by omega)]
  refine onOption_congr _ _ _ _ _ _ _ _ _ h1 (fun k hk hmin => ?_) ?_
  · obtain rfl : k = 3 := hk.symm.trans (by decide)
    simp only [dipSource2MEGMatBranch, h 2 (by omega), h 3 (by omega), h 4 (by omega)]
  refine onOption_congr _ _ _ _ _ _ _ _ _ h1 (fun k hk hmin => ?_) ?_
  · obtain rfl : k = 4 := hk.symm.trans (by decide)
    simp only [head2InternalPotMatBranch, h 2 (by omega), h 3 (by omega), h 4 (by omega),
        h 5 (by omega)]
  refine onOption_congr _ _ _ _ _ _ _ _ _ h1 (fun k hk hmin => ?_) ?_
  · obtain rfl : k = 5 := hk.symm.trans (by decide)
    exact dipSource2InternalPotMatBranch_congr argc argv argv' old (by omega) h
  simp only [unknownArgument, h1]

/-! ## The positions read stay below the argument count -/

theorem readsOn_forall (P : Nat → Prop) (argc : Int) (argv options files : List String)
    (body otherwise : List Nat)
    (hbody : ∀ k, minimum_nparms files = k → ¬ toUnsigned (argc - 2) < k → ∀ i ∈ body, P i)
    (hother : ∀ i ∈ otherwise, P i) :
    ∀ i ∈ readsOn argc argv options files body otherwise, P i := by
  unfold readsOn
  by_cases hmem : arg argv 1 ∈ options
  · rw [option_of_mem _ _ _ _ hmem]
    by_cases hlt : toUnsigned (argc - 2) < minimum_nparms files
    · simp [hlt]
    · simpa [hlt] using hbody _ rfl hlt
  · rw [option_of_not_mem _ _ _ _ hmem]
    exact hother

/-- Every position read by the switch is guarded by the value of `argc` tested. -/
theorem corticalSwitchReads_lt (env : Env) (argc : Int) (argv : List String) :
    ∀ i ∈ corticalSwitchReads env argc argv, (i : Int) < argc := by
  intro i hi
  unfold corticalSwitchReads at hi
  by_cases h8 : argc = 8
  · rcases h7 : env.extract (arg argv 7) with _ | a <;> simp [h8, h7] at hi <;> omega
  by_cases h9 : argc = 9
  · rcases h7 : env.extract (arg argv 7) with _ | a <;>
      rcases h8' : env.extract (arg argv 8) with _ | b <;>
      simp [h9, h7, h8'] at hi <;> omega
  by_cases h10 : argc = 10
  · rcases h7 : env.extract (arg argv 7) with _ | a <;>
      rcases h8' : env.extract (arg argv 8) with _ | b <;>
      simp [h10, h7, h8'] at hi <;> omega
  · simp [h8, h9, h10] at hi

theorem corticalMatReads_lt (env : Env) (argc : Int) (argv : List String) (old : Bool)
    (hargc : 7 ≤ argc) : ∀ i ∈ corticalMatReads env argc argv old, (i : Int) < argc := by
  intro i hi
  unfold corticalMatReads at hi
  rcases List.mem_append.mp hi with hi | hi
  · exact corticalSwitchReads_lt env argc argv i hi
  · split at hi
    · simp at hi
    · split at hi <;> simp at hi <;> omega

/-- Inside the command branches every position read is below `argc`. -/
theorem dispatchReads_lt (env : Env) (argc : Int) (argv : List String) (old : Bool)
    (hargc : 2 ≤ argc) : ∀ i ∈ dispatchReads env argc argv old, (i : Int) < argc := by
  have hu := toUnsigned_le (argc - 2) (by omega)
  unfold dispatchReads
  refine readsOn_forall _ _ _ _ _ _ _ (fun k hk hmin i hi => ?_) ?_
  · obtain rfl : k = 3 := hk.symm.trans (by decide)
    unfold headMatReads at hi
    split at hi <;> simp at hi <;> omega
  refine readsOn_forall _ _ _ _ _ _ _ (fun k hk hmin i hi => ?_) ?_
  · obtain rfl : k = 5 := hk.symm.trans (by decide)
    exact corticalMatReads_lt env argc argv old (by omega) i hi
  refine readsOn_forall _ _ _ _ _ _ _ (fun k hk hmin i hi => ?_) ?_
  · obtain rfl : k = 4 := hk.symm.trans (by decide)
    simp at hi
    omega
  refine readsOn_forall _ _ _ _ _ _ _ (fun k hk hmin i hi => ?_) ?_
  · obtain rfl : k = 4 := hk.symm.trans (by decide)
    unfold dipSourceMatReads at hi
    by_cases h7 : argc = 7 <;> by_cases hn : env.ncol (arg argv 4) = 6 <;>
      simp [h7, hn] at hi <;> omega
  refine readsOn_forall _ _ _ _ _ _ _ (fun k hk hmin i hi => ?_) ?_
  · obtain rfl : k = 4 := hk.symm.trans (by decide)
    simp at hi
    omega
  refine readsOn_forall _ _ _ _ _ _ _ (fun k hk hmin i hi => ?_) ?_
  · obtain rfl : k = 4 := hk.symm.trans (by decide)
    simp at hi
    omega
  refine readsOn_forall _ _ _ _ _ _ _ (fun k hk hmin i hi => ?_) ?_
  · obtain rfl : k = 4 := hk.symm.trans (by decide)
    unfold head2ECoGMatReads at hi
    by_cases h6 : argc = 6 <;> simp [h6] at hi <;> omega
  refine readsOn_forall _ _ _ _ _ _ _ (fun k hk hmin i hi => ?_) ?_
  · obtain rfl : k = 4 := hk.symm.trans (by decide)
    simp at hi
    omega
  refine readsOn_forall _ _ _ _ _ _ _ (fun k hk hmin i hi => ?_) ?_
  · obtain rfl : k = 3 := hk.symm.trans (by decide)
    simp at hi
    omega
  refine readsOn_forall _ _ _ _ _ _ _ (fun k hk hmin i hi => ?_) ?_
  · obtain rfl : k = 3 := hk.symm.trans (by decide)
    simp at hi
    omega
  refine readsOn_forall _ _ _ _ _ _ _ (fun k hk hmin i hi => ?_) ?_
  · obtain rfl : k = 4 := hk.symm.trans (by decide)
    simp at hi
    omega
  refine readsOn_forall _ _ _ _ _ _ _ (fun k hk hmin i hi => ?_) ?_
  · obtain rfl : k = 5 := hk.symm.trans (by decide)
    unfold dipSource2InternalPotMatReads at hi
    by_cases h9 : argc = 9 <;> simp [h9] at hi <;> omega
  · simp

/-- With the ordering flag as only argument after the program name no branch is run. -/
theorem dispatchReads_of_flag (env : Env) (argc : Int) (argv : List String) (old : Bool)
    (hflag : arg argv 1 = "-old-ordering") : dispatchReads env argc argv old = [] := by
  simp [dispatchReads, readsOn, option, hflag]

/-- C14: every position of `argv` read by `main` outside the branches and by `option`
(`argv[0]`, `argv[argc-1]`, `argv[1]`) lies inside the vector (for an empty vector the
only position read is `argv[0]`, the slot `argv[argc]` of the terminating null pointer);
inside the command branch that runs, every position read as a file, parameter, domain
name or interface name is below the effective argument count, hence inside the vector;
and the result of the chain of branches is the same for any other vector that agrees
with `argv` below the effective argument count. -/
theorem argv_reads_in_bounds (env : Env) (argv : List String) :
    (∀ i ∈ outerReads argv, i < argv.length ∨ (argv = [] ∧ i = 0)) ∧
    (∀ i ∈ branchReads env argv,
      (i : Int) < effectiveArgc argv ∧ i < argv.length) ∧
    (2 ≤ effectiveArgc argv → ∀ argv' : List String,
      (∀ i : Nat, (i : Int) < effectiveArgc argv → arg argv' i = arg argv i) →
      dispatch env (effectiveArgc argv) argv' (oldOrdering argv) =
        dispatch env (effectiveArgc argv) argv (oldOrdering argv)) := by
  refine ⟨fun i hi => ?_, fun i hi => ?_, fun h2 argv' h =>
    dispatch_congr_below env _ argv argv' _ h2 h⟩
  · unfold outerReads at hi
    by_cases hlen : (argv.length : Int) < 2
    · simp only [hlen, if_true, List.mem_singleton] at hi
      rcases argv with _ | ⟨a, rest⟩
      · exact Or.inr ⟨rfl, hi⟩
      · left
        simp [hi]
    · simp only [hlen, if_false, List.mem_cons, List.mem_singleton, List.not_mem_nil,
        or_false] at hi
      left
      omega
  · have hle := effectiveArgc_le_length argv
    suffices hlt : (i : Int) < effectiveArgc argv from ⟨hlt, by omega⟩
    unfold branchReads at hi
    by_cases hlen : (argv.length : Int) < 2
    · simp [hlen] at hi
    · simp only [hlen, if_false] at hi
      split at hi
      · by_cases h2 : 2 ≤ effectiveArgc argv
        · exact dispatchReads_lt env _ argv _ h2 i hi
        · have hold : oldOrdering argv = true := by
            by_contra hn
            simp only [effectiveArgc, hn] at h2
            simp at h2
            omega
          have hl2 : argv.length = 2 := by
            simp only [effectiveArgc, hold, if_true] at h2
            omega
          have hflag : arg argv 1 = "-old-ordering" := by
            simpa [oldOrdering, hl2] using hold
          simp [dispatchReads_of_flag env _ argv _ hflag] at hi
      · simp at hi

/-! ## The ordering flag does not take part in the selection -/

theorem onOption_setOrdering (b : Bool) (argc : Int) (argv options files : List String)
    (body otherwise : Branch) :
    Branch.setOrdering b (onOption argc argv options files body otherwise) =
      onOption argc argv options files (Branch.setOrdering b body)
        (Branch.setOrdering b otherwise) := by
  unfold onOption
  rcases option argc argv options files with (_ | _) | _ <;>
    simp [Branch.setOrdering, Event.setOrdering]

theorem headMatBranch_setOrdering (b old : Bool) (env : Env) (argv : List String) :
    Branch.setOrdering b (headMatBranch (env.onOrdering b) argv old) =
      headMatBranch env argv b := by
  by_cases hc : env.selfCheck ⟨arg argv 2, arg argv 3, b⟩ = true <;>
    simp [headMatBranch, Branch.setOrdering, Event.setOrdering, Operator.setOrdering,
      Geometry.setOrdering, Env.onOrdering, hc]

theorem corticalSwitch_onOrdering (b : Bool) (env : Env) (argc : Int) (argv : List String) :
    corticalSwitch (env.onOrdering b) argc argv = corticalSwitch env argc argv := rfl

theorem corticalMatBranch_setOrdering (b old : Bool) (env : Env) (argc : Int)
    (argv : List String) :
    Branch.setOrdering b (corticalMatBranch (env.onOrdering b) argc argv old) =
      corticalMatBranch env argc argv b := by
  unfold corticalMatBranch
  rw [corticalSwitch_onOrdering]
  rcases corticalSwitch env argc argv with what | p
  · simp [Branch.setOrdering]
  · by_cases hc : env.selfCheck ⟨arg argv 2, arg argv 3, b⟩ = true <;>
      by_cases hg : p.gamma > 0 <;>
      simp [Branch.setOrdering, Event.setOrdering, Operator.setOrdering,
        Sensors.setOrdering, Geometry.setOrdering, Env.onOrdering, hc, hg]

theorem surfSourceMatBranch_setOrdering (b old : Bool) (argv : List String) :
    Branch.setOrdering b (surfSourceMatBranch argv old) = surfSourceMatBranch argv b := by
  simp [surfSourceMatBranch, Branch.setOrdering, Event.setOrdering, Operator.setOrdering,
    Geometry.setOrdering]

theorem dipSourceMatBranch_setOrdering (b old : Bool) (env : Env) (argc : Int)
    (argv : List String) :
    Branch.setOrdering b (dipSourceMatBranch (env.onOrdering b) argc argv old) =
      dipSourceMatBranch env argc argv b := by
  unfold dipSourceMatBranch
  by_cases h7 : argc = 7 <;> by_cases hn : env.ncol (arg argv 4) = 6 <;>
    rcases option argc argv ["-DipSourceMatNoAdapt", "-DSMNA", "-dsmna"] dipSourceMatFiles
      with (_ | _) | _ <;>
    simp [Branch.setOrdering, Event.setOrdering, Operator.setOrdering,
      Geometry.setOrdering, Env.onOrdering, h7, hn]

theorem eitSourceMatBranch_setOrdering (b old : Bool) (argv : List String) :
    Branch.setOrdering b (eitSourceMatBranch argv old) = eitSourceMatBranch argv b := by
  simp [eitSourceMatBranch, Branch.setOrdering, Event.setOrdering, Operator.setOrdering,
    Sensors.setOrdering, Geometry.setOrdering]

theorem head2EEGMatBranch_setOrdering (b old : Bool) (argv : List String) :
    Branch.setOrdering b (head2EEGMatBranch argv old) = head2EEGMatBranch argv b := by
  simp [head2EEGMatBranch, Branch.setOrdering, Event.setOrdering, Operator.setOrdering,
    Sensors.setOrdering, Geometry.setOrdering]

theorem head2ECoGMatBranch_setOrdering (b old : Bool) (argc : Int) (argv : List String) :
    Branch.setOrdering b (head2ECoGMatBranch argc argv old) =
      head2ECoGMatBranch argc argv b := by
  by_cases h6 : argc = 6 <;>
    simp [head2ECoGMatBranch, ecogWarning, Branch.setOrdering, Event.setOrdering,
      Operator.setOrdering, Sensors.setOrdering, Interface.setOrdering,
      Geometry.setOrdering, h6]

theorem head2MEGMatBranch_setOrdering (b old : Bool) (argv : List String) :
    Branch.setOrdering b (head2MEGMatBranch argv old) = head2MEGMatBranch argv b := by
  simp [head2MEGMatBranch, Branch.setOrdering, Event.setOrdering, Operator.setOrdering,
    Sensors.setOrdering, Geometry.setOrdering]

theorem surfSource2MEGMatBranch_setOrdering (b : Bool) (argv : List String) :
    Branch.setOrdering b (surfSource2MEGMatBranch argv) = surfSource2MEGMatBranch argv := by
  simp [surfSource2MEGMatBranch, Branch.setOrdering, Event.setOrdering,
    Operator.setOrdering, Sensors.setOrdering]

theorem dipSource2MEGMatBranch_setOrdering (b : Bool) (argv : List String) :
    Branch.setOrdering b (dipSource2MEGMatBranch argv) = dipSource2MEGMatBranch argv := by
  simp [dipSource2MEGMatBranch, Branch.setOrdering, Event.setOrdering,
    Operator.setOrdering, Sensors.setOrdering]

theorem head2InternalPotMatBranch_setOrdering (b old : Bool) (argv : List String) :
    Branch.setOrdering b (head2InternalPotMatBranch argv old) =
      head2InternalPotMatBranch argv b := by
  simp [head2InternalPotMatBranch, Branch.setOrdering, Event.setOrdering,
    Operator.setOrdering, Geometry.setOrdering]

theorem dipSource2InternalPotMatBranch_setOrdering (b old : Bool) (argc : Int)
    (argv : List String) :
    Branch.setOrdering b (dipSource2InternalPotMatBranch argc argv old) =
      dipSource2InternalPotMatBranch argc argv b := by
  by_cases h9 : argc = 9 <;>
    simp [dipSource2InternalPotMatBranch, Branch.setOrdering, Event.setOrdering,
      Operator.setOrdering, Geometry.setOrdering, h9]

theorem unknownArgument_setOrdering (b : Bool) (argv : List String) :
    Branch.setOrdering b (unknownArgument argv) = unknownArgument argv := by
  simp [unknownArgument, Branch.setOrdering, Event.setOrdering]

/-- The chain run with the flag `b` is the chain run with any flag in which every
geometry, the one given to the self check included, has its flag set to `b`: the flag
reaches the geometries and nothing else. -/
theorem dispatch_setOrdering (b old : Bool) (env : Env) (argc : Int) (argv : List String) :
    Branch.setOrdering b (dispatch (env.onOrdering b) argc argv old) =
      dispatch env argc argv b := by
  unfold dispatch
  simp only [onOption_setOrdering, headMatBranch_setOrdering, corticalMatBranch_setOrdering,
    surfSourceMatBranch_setOrdering, dipSourceMatBranch_setOrdering,
    eitSourceMatBranch_setOrdering, head2EEGMatBranch_setOrdering,
    head2ECoGMatBranch_setOrdering, head2MEGMatBranch_setOrdering,
    surfSource2MEGMatBranch_setOrdering, dipSource2MEGMatBranch_setOrdering,
    head2InternalPotMatBranch_setOrdering, dipSource2InternalPotMatBranch_setOrdering,
    unknownArgument_setOrdering]

theorem constructed_map_setOrdering (b : Bool) (events : List Event) :
    (events.map (Event.setOrdering b)).filterMap
        (fun e => match e with
          | .construct op => some op
          | _ => none) =
      (events.filterMap fun e => match e with
          | .construct op => some op
          | _ => none).map (Operator.setOrdering b) := by
  induction events with
  | nil => rfl
  | cons e rest ih => cases e <;> simp [Event.setOrdering, ih]

theorem saved_map_setOrdering (b : Bool) (events : List Event) :
    (events.map (Event.setOrdering b)).filterMap
        (fun e => match e with
          | .save op file => some (op, file)
          | _ => none) =
      (events.filterMap fun e => match e with
          | .save op file => some (op, file)
          | _ => none).map (fun p => (p.1.setOrdering b, p.2)) := by
  induction events with
  | nil => rfl
  | cons e rest ih => cases e <;> simp [Event.setOrdering, ih]

theorem finish_outcome (argc : Int) (argv : List String) (br : Branch) :
    (finish (start argv) argc argv br).outcome = br.2.getD (.returned 0) := by
  rcases br with ⟨events, _ | outcome⟩ <;> rfl

theorem finish_constructed (argc : Int) (argv : List String) (br : Branch) :
    (finish (start argv) argc argv br).constructed =
      br.1.filterMap fun e => match e with
        | .construct op => some op
        | _ => none := by
  rcases br with ⟨events, _ | outcome⟩ <;> by_cases ho : oldOrdering argv = true <;>
    simp [finish, start, Run.constructed, ho]

theorem finish_saved (argc : Int) (argv : List String) (br : Branch) :
    (finish (start argv) argc argv br).saved =
      br.1.filterMap fun e => match e with
        | .save op file => some (op, file)
        | _ => none := by
  rcases br with ⟨events, _ | outcome⟩ <;> by_cases ho : oldOrdering argv = true <;>
    simp [finish, start, Run.saved, ho]

theorem finish_loadGeometry (argc : Int) (argv : List String) (br : Branch) (geo : Geometry)
    (h : Event.loadGeometry geo ∈ (finish (start argv) argc argv br).trace) :
    Event.loadGeometry geo ∈ br.1 := by
  rcases br with ⟨events, _ | outcome⟩ <;> by_cases ho : oldOrdering argv = true <;>
    simpa [finish, start, ho] using h

/-- Every geometry loaded by the chain carries the flag the chain is given. -/
theorem dispatch_loadGeometry (env : Env) (argc : Int) (argv : List String) (old : Bool)
    (geo : Geometry) (h : Event.loadGeometry geo ∈ (dispatch env argc argv old).1) :
    geo.OLD_ORDERING = old := by
  rw [← dispatch_setOrdering old old env argc argv] at h
  simp only [Branch.setOrdering, List.mem_map] at h
  obtain ⟨e, _, he⟩ := h
  cases e <;> simp [Event.setOrdering] at he
  rw [← he]
  rfl

/-- Every geometry `main` loads has old ordering enabled exactly when the last argument
is the ordering flag. -/
theorem main_loadGeometry (env : Env) (argv : List String) (geo : Geometry)
    (h : Event.loadGeometry geo ∈ (main env argv).trace) :
    geo.OLD_ORDERING = oldOrdering argv := by
  unfold main at h
  by_cases hlen : (argv.length : Int) < 2
  · simp [hlen] at h
  · simp only [hlen, if_false] at h
    split at h
    · by_cases ho : oldOrdering argv = true <;> simp [start, ho] at h
    · by_cases ho : oldOrdering argv = true <;> simp [start, ho] at h
    · exact dispatch_loadGeometry env _ argv _ geo (finish_loadGeometry _ argv _ geo h)

theorem arg_append_of_lt (base extra : List String) (i : Nat) (h : i < base.length) :
    arg (base ++ extra) i = arg base i := by
  simp [arg, List.getD_eq_getElem?_getD, List.getElem?_append_left h]

theorem oldOrdering_append_flag (base : List String) :
    oldOrdering (base ++ ["-old-ordering"]) = true := by
  simp [oldOrdering, arg, List.getD_eq_getElem?_getD]

theorem effectiveArgc_append_flag (base : List String) :
    effectiveArgc (base ++ ["-old-ordering"]) = base.length := by
  simp [effectiveArgc, oldOrdering_append_flag]

theorem effectiveArgc_of_no_flag (argv : List String) (h : oldOrdering argv = false) :
    effectiveArgc argv = argv.length := by
  simp [effectiveArgc, h]

/-- C13 (as stated, refuted): when the argument before the final "-old-ordering" is
itself "-old-ordering", removing the last argument changes the command line that is run:
with both flags DipSourceMat receives the domain name "-old-ordering", with the last one
removed it receives the empty domain name. -/
theorem old_ordering_twice_differs :
    dsmTwiceLine.getLast? = some "-old-ordering" ∧
    2 ≤ dsmTwiceLine.dropLast.length ∧
    (main (sampleEnv true 6) dsmTwiceLine).constructed =
      [.DipSourceMat ⟨"head.geom", "head.cond", true⟩ "dipoles.txt" 3 true "-old-ordering"] ∧
    (main (sampleEnv true 6) dsmTwiceLine.dropLast).constructed =
      [.DipSourceMat ⟨"head.geom", "head.cond", true⟩ "dipoles.txt" 3 true ""] := by
  decide

/-- C13 (amended): for every argument list `base` with at least one argument after the
program name and whose last argument is not "-old-ordering", the run on `base` followed
by "-old-ordering" has the same effective argument count, ends the same way, and
constructs and saves the same operators (same command, input files, parameters, domain
or interface name, output file) as the run on `base`, except that every geometry has
old ordering enabled, the one given to the self check included; and in every run the
geometries loaded have old ordering enabled exactly when the last argument is
"-old-ordering". -/
theorem old_ordering_flag_only_sets_ordering (env : Env) (base : List String)
    (hlen : 2 ≤ base.length) (hlast : oldOrdering base = false) :
    effectiveArgc (base ++ ["-old-ordering"]) = effectiveArgc base ∧
    (main env (base ++ ["-old-ordering"])).outcome =
      (main (env.onOrdering true) base).outcome ∧
    (main env (base ++ ["-old-ordering"])).constructed =
      (main (env.onOrdering true) base).constructed.map (Operator.setOrdering true) ∧
    (main env (base ++ ["-old-ordering"])).saved =
      (main (env.onOrdering true) base).saved.map (fun p => (p.1.setOrdering true, p.2)) ∧
    (∀ geo, .loadGeometry geo ∈ (main env (base ++ ["-old-ordering"])).trace →
      geo.OLD_ORDERING = true) ∧
    (∀ argv geo, oldOrdering argv = false → .loadGeometry geo ∈ (main env argv).trace →
      geo.OLD_ORDERING = false) := by
  have hflag := oldOrdering_append_flag base
  have heff := effectiveArgc_append_flag base
  have heff0 := effectiveArgc_of_no_flag base hlast
  have h1 : arg (base ++ ["-old-ordering"]) 1 = arg base 1 :=
    arg_append_of_lt base _ 1 (by omega)
  have key : (main env (base ++ ["-old-ordering"])).outcome =
        (main (env.onOrdering true) base).outcome ∧
      (main env (base ++ ["-old-ordering"])).constructed =
        (main (env.onOrdering true) base).constructed.map (Operator.setOrdering true) ∧
      (main env (base ++ ["-old-ordering"])).saved =
        (main (env.onOrdering true) base).saved.map
          (fun p => (p.1.setOrdering true, p.2)) := by
    by_cases hhelp : arg base 1 ∈ ["-h", "--help"]
    · have hl1 : ¬ ((base.length : Int) + 1 < 2) := by omega
      have hl0 : ¬ ((base.length : Int) < 2) := by omega
      have ho1 := option_of_mem (effectiveArgc (base ++ ["-old-ordering"]))
        (base ++ ["-old-ordering"]) ["-h", "--help"] [] (by rw [h1]; exact hhelp)
      have ho0 := option_of_mem (effectiveArgc base) base ["-h", "--help"] [] hhelp
      simp only [minimum_nparms, List.foldl_nil, List.length_nil, Nat.zero_mod,
        Nat.not_lt_zero, if_false] at ho1 ho0
      simp [main, hl1, hl0, ho1, ho0, start, hflag, hlast, Run.constructed, Run.saved]
    · have hd : dispatch env (base.length : Int) (base ++ ["-old-ordering"]) true =
          Branch.setOrdering true
            (dispatch (env.onOrdering true) (base.length : Int) base false) := by
        rw [dispatch_setOrdering]
        exact dispatch_congr_below env _ base _ true (by omega)
          (fun i hi => arg_append_of_lt base _ i (by omega))
      rw [main_eq_finish env (base ++ ["-old-ordering"]) (by rw [heff]; omega)
          (by rw [h1]; exact hhelp),
        main_eq_finish (env.onOrdering true) base (by rw [heff0]; omega) hhelp,
        heff, heff0, hflag, hlast, hd]
      refine ⟨?_, ?_, ?_⟩
      · rw [finish_outcome, finish_outcome]
        rfl
      · rw [finish_constructed, finish_constructed]
        exact constructed_map_setOrdering true _
      · rw [finish_saved, finish_saved]
        exact saved_map_setOrdering true _
  exact ⟨by rw [heff, heff0], key.1, key.2.1, key.2.2,
    fun geo h => by rw [main_loadGeometry env _ geo h, hflag],
    fun argv geo ho h => by rw [main_loadGeometry env _ geo h, ho]⟩

theorem old_ordering_flag_only_sets_ordering_witness :
    (2 ≤ (dsmLine ++ ["Brain"]).length ∧ oldOrdering (dsmLine ++ ["Brain"]) = false) ∧
    (main (sampleEnv true 6) (dsmLine ++ ["Brain"] ++ ["-old-ordering"])).constructed =
      (main ((sampleEnv true 6).onOrdering true) (dsmLine ++ ["Brain"])).constructed.map
        (Operator.setOrdering true) :=
  ⟨⟨by decide, by decide⟩,
    (old_ordering_flag_only_sets_ordering (sampleEnv true 6) (dsmLine ++ ["Brain"])
      (by decide) (by decide)).2.2.1⟩

end OpenMEEG
